import Mathlib

/-!
Verification of the `pdf-data-extraction` repository (files
`extract_hospital_data.py` and `extract_sectionb_data.py`).

The development shallowly embeds the parsing core of both scripts:

* a small backtracking regular-expression engine reproducing Python `re`
  semantics (leftmost match, alternation tried left to right, greedy
  quantifiers try the longest expansion first, lazy quantifiers the
  shortest, numbered capture groups) — every regex literal of the source
  is transliterated into an `RE` syntax tree;
* the record/field parsing functions of both scripts, translated
  statement by statement;
* theorems settling the behavioural claims about those functions.

Strings are modelled as Lean `String`/`List Char`; coordinates as `ℚ`.
Python `while` loops whose index strictly increases on every iteration are
modelled with an explicit fuel argument initialised to `lines.length + 1`,
which is sufficient because every iteration advances the index by at least
one; running out of fuel returns the accumulator unchanged, and all
invariant theorems below hold for every fuel value.
-/

namespace HospExtract

/-! ### Python string helpers -/

/-- Python whitespace (`str.split`, `str.strip`, regex `\s`); ASCII subset,
which covers every character produced by the two scripts. -/
def pyWs (c : Char) : Bool :=
  c == ' ' || c == '\t' || c == '\n' || c == '\r' || c == '\x0b' || c == '\x0c'

/-- Python `str.strip()` on a character list. -/
def stripL (s : List Char) : List Char :=
  ((s.dropWhile pyWs).reverse.dropWhile pyWs).reverse

/-- Python `str.strip()`. -/
def strip (s : String) : String := ⟨stripL s.data⟩

/-- Python `str.rstrip(c)` for a single character `c`. -/
def rstripCh (c : Char) (s : String) : String :=
  ⟨(s.data.reverse.dropWhile (· == c)).reverse⟩

/-- Python `str.lstrip` over an arbitrary character predicate (used to model
`re.sub(r'^[,;\s]+', '', t)`, which removes the maximal leading run). -/
def lstripP (p : Char → Bool) (s : String) : String := ⟨s.data.dropWhile p⟩

/-- Occurrence test: does `pat` occur as a contiguous sublist of `s`?
Models Python `pat in s`. -/
def hasSub (pat : List Char) : List Char → Bool
  | [] => pat.isPrefixOf []
  | c :: cs => pat.isPrefixOf (c :: cs) || hasSub pat cs

/-- Python `needle in s` on strings. -/
def containsStr (needle s : String) : Bool := hasSub needle.data s.data

/-- Python `s.startswith(p)`. -/
def startsWithS (s p : String) : Bool := p.data.isPrefixOf s.data

/-- Python `s.endswith(p)`. -/
def endsWithS (s p : String) : Bool := p.data.isSuffixOf s.data

/-- Python `s[:n]` (first `n` characters). -/
def takeS (n : Nat) (s : String) : String := ⟨s.data.take n⟩

/-- Python `s[n:]` (drop the first `n` characters). -/
def dropS (n : Nat) (s : String) : String := ⟨s.data.drop n⟩

/-- Length of a Python string in characters. -/
def lenS (s : String) : Nat := s.data.length

/-- Python `a.replace(old, new)` for single characters (all the `replace`
calls in the two scripts replace one character by one character). -/
def replaceCh (old new : Char) (s : String) : String :=
  ⟨s.data.map (fun c => if c == old then new else c)⟩

/-- Python `text.split('\n')`: split at every newline, yielding `[""]` on
the empty string, like Python. -/
def splitNlGo : List Char → List Char → List String
  | [], cur => [⟨cur.reverse⟩]
  | c :: cs, cur =>
      if c = '\n' then (⟨cur.reverse⟩ : String) :: splitNlGo cs []
      else splitNlGo cs (c :: cur)

def splitNl (s : String) : List String := splitNlGo s.data []

/-! ### A backtracking regex engine with Python `re` semantics -/

/-- Capture environment: capture-group index paired with captured text.
`setCap` conses, so the most recent assignment to an index wins. -/
abbrev Caps := List (Nat × List Char)

def setCap (i : Nat) (v : List Char) (g : Caps) : Caps := (i, v) :: g

def getCap (g : Caps) (i : Nat) : Option (List Char) :=
  (g.find? (fun p => p.1 == i)).map (·.2)

/-- Regex syntax trees.  `dot` is `.` (anything but a newline), `dotAll`
is `.` under `re.DOTALL`, `lit` a literal string, `litIC` a
case-insensitive literal (`re.IGNORECASE`), `cls` a character class,
`opt` a greedy `?`, `star`/`starL` greedy/lazy `*`, `rep n` exactly-`n`
repetition (`{n}`), `grp i` a numbered capture group and `eos` is `$`
(none of the embedded inputs end in a newline, so `$` is end-of-string). -/
inductive RE where
  | eps
  | dot
  | dotAll
  | lit (cs : List Char)
  | litIC (cs : List Char)
  | cls (p : Char → Bool)
  | seq (a b : RE)
  | alt (a b : RE)
  | opt (a : RE)
  | star (a : RE)
  | starL (a : RE)
  | rep (n : Nat) (a : RE)
  | grp (i : Nat) (a : RE)
  | eos

/-- Case-insensitive prefix test (ASCII, matching the `re.IGNORECASE`
uses in the source, which only involve ASCII letters). -/
def icPrefix : List Char → List Char → Bool
  | [], _ => true
  | _ :: _, [] => false
  | c :: cs, d :: ds => (c.toLower == d.toLower) && icPrefix cs ds

/-- Structural size of a pattern; used to compute a fuel value that
dominates the engine's recursion depth. -/
def reSize : RE → Nat
  | .eps | .eos | .dot | .dotAll | .cls _ => 1
  | .lit cs | .litIC cs => cs.length + 1
  | .seq a b | .alt a b => reSize a + reSize b + 1
  | .opt a | .star a | .starL a => reSize a + 1
  | .rep n a => n * (reSize a + 1) + 1
  | .grp _ a => reSize a + 1

/-- The engine.  `runF fuel re s g` returns every way `re` can match a
prefix of `s`, as pairs of (remaining suffix, capture environment), in
Python's backtracking priority order: the head of the list is the match
Python commits to.  Greedy `star`/`opt` put the longer expansion first,
lazy `starL` the shorter; `alt` tries the left branch first.  The
remaining suffix carries a proof that it is a suffix of the input, used
in the theorems below.

The fuel argument only makes the recursion structural: every recursive
call strictly decreases the lexicographic measure (input length, pattern
size), because `star`/`starL` re-entry requires strict consumption (every
star body in this development consumes at least one character, so this is
faithful to Python), and all other calls recurse into a smaller pattern
on a no-longer input.  Hence the recursion depth is at most
`(s.length + 1) * (reSize re + 1)`, the fuel `run` supplies. -/
def runF : Nat → (re : RE) → (s : List Char) → Caps → List ({ t : List Char // t <:+ s } × Caps)
  | 0, _, _, _ => []
  | _+1, .eps, s, g => [(⟨s, List.suffix_rfl⟩, g)]
  | _+1, .eos, s, g => if s.isEmpty then [(⟨s, List.suffix_rfl⟩, g)] else []
  | _+1, .dot, [], _ => []
  | _+1, .dot, c :: cs, g =>
      if c = '\n' then [] else [(⟨cs, List.suffix_cons c cs⟩, g)]
  | _+1, .dotAll, [], _ => []
  | _+1, .dotAll, c :: cs, g => [(⟨cs, List.suffix_cons c cs⟩, g)]
  | _+1, .cls _, [], _ => []
  | _+1, .cls p, c :: cs, g => if p c then [(⟨cs, List.suffix_cons c cs⟩, g)] else []
  | _+1, .lit cs, s, g =>
      if cs.isPrefixOf s then [(⟨s.drop cs.length, List.drop_suffix _ _⟩, g)] else []
  | _+1, .litIC cs, s, g =>
      if icPrefix cs s then [(⟨s.drop cs.length, List.drop_suffix _ _⟩, g)] else []
  | n+1, .seq a b, s, g =>
      (runF n a s g).flatMap (fun p =>
        (runF n b p.1.1 p.2).map (fun q => (⟨q.1.1, q.1.2.trans p.1.2⟩, q.2)))
  | n+1, .alt a b, s, g => runF n a s g ++ runF n b s g
  | n+1, .opt a, s, g => runF n a s g ++ [(⟨s, List.suffix_rfl⟩, g)]
  | n+1, .star a, s, g =>
      ((runF n a s g).flatMap (fun p =>
        if p.1.1.length < s.length then
          (runF n (.star a) p.1.1 p.2).map (fun q => (⟨q.1.1, q.1.2.trans p.1.2⟩, q.2))
        else []))
      ++ [(⟨s, List.suffix_rfl⟩, g)]
  | n+1, .starL a, s, g =>
      (⟨s, List.suffix_rfl⟩, g) ::
      (runF n a s g).flatMap (fun p =>
        if p.1.1.length < s.length then
          (runF n (.starL a) p.1.1 p.2).map (fun q => (⟨q.1.1, q.1.2.trans p.1.2⟩, q.2))
        else [])
  | _+1, .rep 0 _, s, g => [(⟨s, List.suffix_rfl⟩, g)]
  | n+1, .rep (m+1) a, s, g =>
      (runF n a s g).flatMap (fun p =>
        (runF n (.rep m a) p.1.1 p.2).map (fun q => (⟨q.1.1, q.1.2.trans p.1.2⟩, q.2)))
  | n+1, .grp i a, s, g =>
      (runF n a s g).map (fun p => (p.1, setCap i (s.take (s.length - p.1.1.length)) p.2))

/-- Engine entry point with sufficient fuel (see `runF`). -/
def run (re : RE) (s : List Char) (g : Caps) : List ({ t : List Char // t <:+ s } × Caps) :=
  runF ((s.length + 1) * (reSize re + 1)) re s g

/-- Python `re.match(re, s)`: anchored at position 0, prefix match.
Returns `(number of characters consumed, captures)` of the committed match. -/
def reMatch (re : RE) (s : List Char) : Option (Nat × Caps) :=
  match run re s [] with
  | [] => none
  | p :: _ => some (s.length - p.1.1.length, p.2)

/-- Python `re.search(re, s)`: leftmost match.  Returns
`(start index, match length, captures)`. -/
def reSearch (re : RE) : (s : List Char) → Option (Nat × Nat × Caps)
  | [] => (reMatch re []).map (fun p => (0, p.1, p.2))
  | c :: cs =>
    match reMatch re (c :: cs) with
    | some (len, g) => some (0, len, g)
    | none => (reSearch re cs).map fun r => (r.1 + 1, r.2.1, r.2.2)

/-- Value of capture group `i` as a string, empty when unset (Python's
`m.group(i)` is always set in the places this is used). -/
def grpD (g : Caps) (i : Nat) : String :=
  ((getCap g i).map fun cs => (⟨cs⟩ : String)).getD ""

/-- Boolean form of `re.match`. -/
def reTest (re : RE) (s : String) : Bool := (reMatch re s.data).isSome

/-- Boolean form of `re.search`. -/
def reFind (re : RE) (s : String) : Bool := (reSearch re s.data).isSome

/-- Python `re.sub(re, repl, s)` for patterns that cannot match the empty
string (every `re.sub` pattern in the source consumes at least one
character).  `repl` receives the captures and the matched text. -/
def reSubF (re : RE) (repl : Caps → List Char → List Char) : Nat → List Char → List Char
  | 0, s => s
  | _+1, [] => []
  | fuel+1, c :: cs =>
    match reSearch re (c :: cs) with
    | none => c :: cs
    | some (st, len, g) =>
      if len = 0 then (c :: cs).take (st+1) ++ reSubF re repl fuel ((c :: cs).drop (st+1))
      else (c :: cs).take st ++ repl g (((c :: cs).drop st).take len) ++
        reSubF re repl fuel ((c :: cs).drop (st + len))

/-- Entry point: every recursive step of `reSubF` drops at least one
character, so `s.length` fuel is sufficient. -/
def reSubAll (re : RE) (repl : Caps → List Char → List Char) (s : List Char) : List Char :=
  reSubF re repl s.length s

/-- Python `re.split(re, s)[0]`: the text before the first match. -/
def reSplitFirst (re : RE) (s : List Char) : List Char :=
  match reSearch re s with
  | none => s
  | some (st, _, _) => s.take st

/-! ### Pattern-building shorthands -/

def litS (s : String) : RE := .lit s.data

/-- Greedy `+`. -/
def plusG (a : RE) : RE := .seq a (.star a)

/-- Lazy `+?`. -/
def plusL (a : RE) : RE := .seq a (.starL a)

/-- Regex `\s`. -/
def wsR : RE := .cls pyWs

def isDigitC (c : Char) : Bool := '0' ≤ c && c ≤ '9'

def isUpperC (c : Char) : Bool := 'A' ≤ c && c ≤ 'Z'

def isLowerC (c : Char) : Bool := 'a' ≤ c && c ≤ 'z'

/-- Regex `\d`. -/
def digitR : RE := .cls isDigitC

/-- Regex `[A-Z]`. -/
def upperR : RE := .cls isUpperC

/-- Regex `\S`. -/
def nonWsR : RE := .cls (fun c => !pyWs c)

/-- Character membership helper for classes written as explicit sets. -/
def inCh (cs : List Char) (c : Char) : Bool := cs.contains c

/-- U+2013 (en dash).  `normalize_text` replaces it by an ASCII hyphen;
the zip pattern of `extract_hospital_data.py` nevertheless mentions it. -/
def enDash : Char := Char.ofNat 0x2013

/-- U+2014 (em dash). -/
def emDash : Char := Char.ofNat 0x2014

/-- ASCII apostrophe. -/
def apos : Char := Char.ofNat 39

/-- Accreditation marker characters `★`, `□`, `⇑`. -/
def starCh : Char := Char.ofNat 0x2605
def sqCh : Char := Char.ofNat 0x25A1
def upArrCh : Char := Char.ofNat 0x21D1

/-! ## `extract_hospital_data.py` (directory variant) -/

/-- The `Hospital` dataclass (all fields default to the empty string). -/
structure Hospital where
  name : String := ""
  medicare_provider_number : String := ""
  address : String := ""
  city : String := ""
  county : String := ""
  state : String := ""
  zip_code : String := ""
  telephone : String := ""
  primary_contact : String := ""
  coo : String := ""
  cfo : String := ""
  cmo : String := ""
  cio : String := ""
  chr : String := ""
  cno : String := ""
  web_address : String := ""
  control : String := ""
  services : String := ""
  staffed_beds : String := ""
  personnel : String := ""
deriving DecidableEq

/-! ### Patterns of `parse_hospital_entry` (source lines 359-438) -/

/-- Source `r'Zip\s+(\d{5}(?:–\d{4})?)'` — note: the optional +4 suffix is
introduced by a literal U+2013 en dash in the source file. -/
def zipD_re : RE :=
  .seq (litS "Zip") (.seq (plusG wsR)
    (.grp 1 (.seq (.rep 5 digitR) (.opt (.seq (.lit [enDash]) (.rep 4 digitR))))))

/-- Source `r'\(\d{6}\),?\s*(.+?),?\s*Zip'`. -/
def addrD_re : RE :=
  .seq (.lit ['(']) (.seq (.rep 6 digitR) (.seq (.lit [')'])
    (.seq (.opt (.lit [','])) (.seq (.star wsR)
      (.seq (.grp 1 (plusL .dot))
        (.seq (.opt (.lit [','])) (.seq (.star wsR) (litS "Zip"))))))))

/-- Class `[A-Z\s\.\'\-&,+/]`. -/
def addrFallCls (c : Char) : Bool :=
  isUpperC c || pyWs c || inCh ['.', apos, '-', '&', ',', '+', '/'] c

/-- Source `r'^[A-Z][A-Z\s\.\'\-&,+/]+,\s*(.+?),?\s*Zip'` (searched with
`re.search`, but the `^` anchor makes that equal to `re.match`). -/
def addrFallback_re : RE :=
  .seq upperR (.seq (plusG (.cls addrFallCls)) (.seq (.lit [','])
    (.seq (.star wsR) (.seq (.grp 1 (plusL .dot))
      (.seq (.opt (.lit [','])) (.seq (.star wsR) (litS "Zip")))))))

/-- Class `[uenwWs□★⇑]` of accreditation symbols. -/
def symCls (c : Char) : Bool := inCh ['u', 'e', 'n', 'w', 'W', 's', sqCh, starCh, upArrCh] c

/-- Source `r'\s+[uenwWs□★⇑]\s*,?\s*$'`. -/
def symTrail_re : RE :=
  .seq (plusG wsR) (.seq (.cls symCls)
    (.seq (.star wsR) (.seq (.opt (.lit [','])) (.seq (.star wsR) .eos))))

/-- Source `r',\s+[uenwWs□★⇑]\s*,'`. -/
def symMid_re : RE :=
  .seq (.lit [',']) (.seq (plusG wsR) (.seq (.cls symCls)
    (.seq (.star wsR) (.lit [',']))))

/-- Source `r'tel\.\s*([\d/–\-]+)'` (the class contains a U+2013 en dash). -/
def telD_re : RE :=
  .seq (litS "tel.") (.seq (.star wsR)
    (.grp 1 (plusG (.cls (fun c => isDigitC c || c == '/' || c == enDash || c == '-')))))

/-- Class `[^,\n]`. -/
def noCommaNl (c : Char) : Bool := c != ',' && c != '\n'

/-- Contact pattern `LABEL:\s*([^,\n]+(?:,\s*[^,\n]+)?)` shared by all
contact fields except CMO. -/
def contact_re (label : String) : RE :=
  .seq (litS label) (.seq (.star wsR)
    (.grp 1 (.seq (plusG (.cls noCommaNl))
      (.opt (.seq (.lit [',']) (.seq (.star wsR) (plusG (.cls noCommaNl))))))))

/-- Source `r'CMO:\s*([^,\n]+(?:,\s*M\.D\.[^,\n]*)?)'`. -/
def cmo_re : RE :=
  .seq (litS "CMO:") (.seq (.star wsR)
    (.grp 1 (.seq (plusG (.cls noCommaNl))
      (.opt (.seq (.lit [',']) (.seq (.star wsR)
        (.seq (litS "M.D.") (.star (.cls noCommaNl)))))))))

/-- Source `r'\s+(?:COO|CFO|CMO|CIO|CHR|CNO|Web address|Control):'`
used via `re.split(...)[0]`. -/
def contactSplit_re : RE :=
  .seq (plusG wsR) (.seq
    (.alt (litS "COO") (.alt (litS "CFO") (.alt (litS "CMO") (.alt (litS "CIO")
      (.alt (litS "CHR") (.alt (litS "CNO") (.alt (litS "Web address") (litS "Control"))))))))
    (.lit [':']))

/-- Class `[:\s]`. -/
def colonWs (c : Char) : Bool := c == ':' || pyWs c

/-- Source `r'Web address[:\s]+([^\s]+(?:www\.[^\s]+|https?://[^\s]+))'`. -/
def webD1_re : RE :=
  .seq (litS "Web address") (.seq (plusG (.cls colonWs))
    (.grp 1 (.seq (plusG nonWsR)
      (.alt (.seq (litS "www.") (plusG nonWsR))
        (.seq (litS "http") (.seq (.opt (.lit ['s']))
          (.seq (litS "://") (plusG nonWsR))))))))

/-- Source `r'(https?://[^\s]+|www\.[^\s]+)'`. -/
def webD2_re : RE :=
  .grp 1 (.alt
    (.seq (litS "http") (.seq (.opt (.lit ['s'])) (.seq (litS "://") (plusG nonWsR))))
    (.seq (litS "www.") (plusG nonWsR)))

/-- Source `r'Control:\s*([^S]+?)(?:\s+Service:|$)'`. -/
def control_re : RE :=
  .seq (litS "Control:") (.seq (.star wsR)
    (.seq (.grp 1 (plusL (.cls (fun c => c != 'S'))))
      (.alt (.seq (plusG wsR) (litS "Service:")) .eos)))

/-- Source `r'Service:\s*([^\n]+?)(?:\s+Staffed Beds:|$)'`. -/
def service_re : RE :=
  .seq (litS "Service:") (.seq (.star wsR)
    (.seq (.grp 1 (plusL (.cls (fun c => c != '\n'))))
      (.alt (.seq (plusG wsR) (litS "Staffed Beds:")) .eos)))

/-- Source `r'Staffed Beds:\s*(\d+)'`. -/
def bedsD_re : RE :=
  .seq (litS "Staffed Beds:") (.seq (.star wsR) (.grp 1 (plusG digitR)))

/-- Source `r'Personnel:\s*(\d+)'`. -/
def personnelD_re : RE :=
  .seq (litS "Personnel:") (.seq (.star wsR) (.grp 1 (plusG digitR)))

/-- Python `re.sub(r'^[,;\s]+', '', t)`: the pattern is anchored, so it
strips the maximal leading run of commas, semicolons and whitespace. -/
def lstripPunct (s : String) : String :=
  lstripP (fun c => c == ',' || c == ';' || pyWs c) s

/-! `parse_hospital_entry` (source lines 359-438) is transliterated as one
named step per source stanza, composed in source order.  The source
mutates its `Hospital` argument; here each step returns the updated
record. -/

/-- Zip extraction (lines 362-366). -/
def pheZip (text : String) (h : Hospital) : Hospital :=
  match reSearch zipD_re text.data with
  | some (_, _, g) => { h with zip_code := replaceCh enDash '-' (grpD g 1) }
  | none => h

/-- Address extraction with fallback (lines 368-377; the fallback is a
`re.search` of a `^`-anchored pattern, equal to `re.match`). -/
def pheAddr (text : String) (h : Hospital) : Hospital :=
  match reSearch addrD_re text.data with
  | some (_, _, g) => { h with address := rstripCh ',' (strip (grpD g 1)) }
  | none =>
    match reMatch addrFallback_re text.data with
    | some (_, g) => { h with address := rstripCh ',' (strip (grpD g 1)) }
    | none => h

/-- Address cleanup (lines 380-384). -/
def pheAddrClean (h : Hospital) : Hospital :=
  if h.address ≠ "" then
    let a1 : String := ⟨reSubAll symTrail_re (fun _ _ => []) h.address.data⟩
    let a2 : String := ⟨reSubAll symMid_re (fun _ _ => [',']) a1.data⟩
    { h with address := rstripCh ',' (strip a2) }
  else h

/-- Telephone extraction (lines 386-389). -/
def pheTel (text : String) (h : Hospital) : Hospital :=
  match reSearch telD_re text.data with
  | some (_, _, g) => { h with telephone := replaceCh enDash '-' (grpD g 1) }
  | none => h

/-- Contact value cleanup (lines 405-408): strip, then cut at the next
field marker via `re.split(...)[0]`, then strip again. -/
def cleanContact (g : Caps) : String :=
  strip ⟨reSplitFirst contactSplit_re (strip (grpD g 1)).data⟩

/-- One contact field (lines 402-408); `set` stores the cleaned value. -/
def pheContact (re : RE) (set : Hospital → String → Hospital)
    (text : String) (h : Hospital) : Hospital :=
  match reSearch re text.data with
  | some (_, _, g) => set h (cleanContact g)
  | none => h

/-- Web-address extraction with fallback (lines 410-418). -/
def pheWeb (text : String) (h : Hospital) : Hospital :=
  match reSearch webD1_re text.data with
  | some (_, _, g) => { h with web_address := strip (grpD g 1) }
  | none =>
    match reSearch webD2_re text.data with
    | some (_, _, g) => { h with web_address := strip (grpD g 1) }
    | none => h

/-- Control extraction (lines 420-423). -/
def pheControl (text : String) (h : Hospital) : Hospital :=
  match reSearch control_re text.data with
  | some (_, _, g) => { h with control := strip (grpD g 1) }
  | none => h

/-- Services extraction (lines 425-428). -/
def pheService (text : String) (h : Hospital) : Hospital :=
  match reSearch service_re text.data with
  | some (_, _, g) => { h with services := strip (grpD g 1) }
  | none => h

/-- Staffed-bed extraction (lines 430-433). -/
def pheBeds (text : String) (h : Hospital) : Hospital :=
  match reSearch bedsD_re text.data with
  | some (_, _, g) => { h with staffed_beds := grpD g 1 }
  | none => h

/-- Personnel extraction (lines 435-438). -/
def phePersonnel (text : String) (h : Hospital) : Hospital :=
  match reSearch personnelD_re text.data with
  | some (_, _, g) => { h with personnel := grpD g 1 }
  | none => h

/-- Transliteration of `parse_hospital_entry` (lines 359-438): the steps
above, applied in source order (contacts iterate in the dict's insertion
order). -/
def parse_hospital_entry (hospital : Hospital) (text : String) : Hospital :=
  phePersonnel text <| pheBeds text <| pheService text <| pheControl text <|
  pheWeb text <|
  pheContact (contact_re "CNO:") (fun h v => { h with cno := v }) text <|
  pheContact (contact_re "CHR:") (fun h v => { h with chr := v }) text <|
  pheContact (contact_re "CIO:") (fun h v => { h with cio := v }) text <|
  pheContact cmo_re (fun h v => { h with cmo := v }) text <|
  pheContact (contact_re "CFO:") (fun h v => { h with cfo := v }) text <|
  pheContact (contact_re "COO:") (fun h v => { h with coo := v }) text <|
  pheContact (contact_re "Primary Contact:") (fun h v => { h with primary_contact := v }) text <|
  pheTel text <| pheAddrClean <| pheAddr text <| pheZip text hospital

/-! ### Headers and record starts of the directory variant -/

/-- Transliteration of `normalize_text` (both scripts; all four `replace`
calls substitute one character for one character). -/
def normalize_text (s : String) : String :=
  ⟨s.data.map (fun c =>
    if c == enDash || c == emDash then '-'
    else if c == Char.ofNat 0x2019 || c == Char.ofNat 0x2018 then apos
    else if c == Char.ofNat 0x201c || c == Char.ofNat 0x201d then '"'
    else if c == Char.ofNat 0xa0 then ' '
    else c)⟩

/-- The fifty state names of the state-header regex in
`extract_hospital_data.py` (lines 201 and 285). -/
def D_STATES : List String :=
  ["ALABAMA", "ALASKA", "ARIZONA", "ARKANSAS", "CALIFORNIA", "COLORADO",
   "CONNECTICUT", "DELAWARE", "FLORIDA", "GEORGIA", "HAWAII", "IDAHO",
   "ILLINOIS", "INDIANA", "IOWA", "KANSAS", "KENTUCKY", "LOUISIANA",
   "MAINE", "MARYLAND", "MASSACHUSETTS", "MICHIGAN", "MINNESOTA",
   "MISSISSIPPI", "MISSOURI", "MONTANA", "NEBRASKA", "NEVADA",
   "NEW HAMPSHIRE", "NEW JERSEY", "NEW MEXICO", "NEW YORK",
   "NORTH CAROLINA", "NORTH DAKOTA", "OHIO", "OKLAHOMA", "OREGON",
   "PENNSYLVANIA", "RHODE ISLAND", "SOUTH CAROLINA", "SOUTH DAKOTA",
   "TENNESSEE", "TEXAS", "UTAH", "VERMONT", "VIRGINIA", "WASHINGTON",
   "WEST VIRGINIA", "WISCONSIN", "WYOMING"]

/-- The state-header regex `^(ALABAMA|...|WYOMING)$` is an anchored
alternation of distinct literals, so it matches exactly when the line
equals one of the fifty names, and then group 1 is the whole line. -/
def stateHdrMatch (line : String) : Option String :=
  if D_STATES.contains line then some line else none

/-- Class `[A-Z\s\.]`. -/
def countyCls (c : Char) : Bool := isUpperC c || pyWs c || c == '.'

/-- Source `r'^([A-Z][A-Z\s\.]+)[-—](.+\s+County)$'` (lines 207 and 292). -/
def county_re : RE :=
  .seq (.grp 1 (.seq upperR (plusG (.cls countyCls))))
    (.seq (.cls (fun c => c == '-' || c == emDash))
      (.seq (.grp 2 (.seq (plusG .dot) (.seq (plusG wsR) (litS "County")))) .eos))

/-- Source `r'^[A-Z][A-Z\s\.]+[-—].+County$'` (assembly stop check, lines
246 and 335 — note: no `\s+` before `County` in this variant). -/
def countyStop_re : RE :=
  .seq upperR (.seq (plusG (.cls countyCls))
    (.seq (.cls (fun c => c == '-' || c == emDash))
      (.seq (plusG .dot) (.seq (litS "County") .eos))))

/-- Accreditation marker characters `[★□⇑uenwW]`. -/
def markerCh (c : Char) : Bool := inCh [starCh, sqCh, upArrCh, 'u', 'e', 'n', 'w', 'W'] c

/-- Class `[\s\t]` (equal to `\s`, since `\s` contains tab). -/
def spTabR : RE := .cls pyWs

/-- Prefix `(?:[★□⇑uenwW][\s\t]+|[\s\t])*` of the `parse_hospitals`
record-start patterns. -/
def markerPre : RE := .star (.alt (.seq (.cls markerCh) (plusG spTabR)) spTabR)

/-- Class `[A-Za-z0-9\s\.'\-&,+/]`. -/
def nameClsD (c : Char) : Bool :=
  isUpperC c || isLowerC c || isDigitC c || pyWs c ||
    inCh ['.', apos, '-', '&', ',', '+', '/'] c

/-- Class `[A-Z0-9\s\.'\-&,+/]` (military/no-ID pattern). -/
def milClsD (c : Char) : Bool :=
  isUpperC c || isDigitC c || pyWs c || inCh ['.', apos, '-', '&', ',', '+', '/'] c

/-- Class `[A-Za-z]`. -/
def alphaC (c : Char) : Bool := isUpperC c || isLowerC c

/-- Source record-start with provider number,
`r"^(?:[★□⇑uenwW][\s\t]+|[\s\t])*([A-Z][A-Za-z0-9\s\.'\-&,+/]+)\s*\((\d{6})\)"`
(line 305). -/
def hospital_re : RE :=
  .seq markerPre (.seq (.grp 1 (.seq upperR (plusG (.cls nameClsD))))
    (.seq (.star wsR) (.seq (.lit ['(']) (.seq (.grp 2 (.rep 6 digitR)) (.lit [')'])))))

/-- Source no-ID record start
`r"^(?:[★□⇑uenwW][\s\t]+|[\s\t])*([A-Z][A-Z0-9\s\.'\-&,+/]+),\s*\d+\s+[A-Za-z]"`
(lines 310-315). -/
def noId_re : RE :=
  .seq markerPre (.seq (.grp 1 (.seq upperR (plusG (.cls milClsD))))
    (.seq (.lit [',']) (.seq (.star wsR)
      (.seq (plusG digitR) (.seq (plusG wsR) (.cls alphaC))))))

/-- Stop pattern of the `parse_hospitals` assembly loop, line 337 (same
shape as `hospital_re`, without captures). -/
def hospStop_re : RE :=
  .seq markerPre (.seq upperR (.seq (plusG (.cls nameClsD))
    (.seq (.star wsR) (.seq (.lit ['(']) (.seq (.rep 6 digitR) (.lit [')']))))))

/-- Stop pattern of the `parse_hospitals` assembly loop, line 339. -/
def milStop_re : RE :=
  .seq markerPre (.seq upperR (.seq (plusG (.cls milClsD))
    (.seq (.lit [',']) (.seq (.star wsR)
      (.seq (plusG digitR) (.seq (plusG wsR) (.cls alphaC)))))))

/-- Prefix `[★□⇑uenwW\s\t]*` of the font-detection assembly stop patterns
(lines 253 and 256; a single character class, unlike `markerPre`). -/
def fdPre : RE := .star (.cls (fun c => markerCh c || pyWs c))

/-- Source `r"^[★□⇑uenwW\s\t]*[A-Z][A-Za-z0-9\s\.'\-&,+/]+\s*\(\d{6}\)"`
(line 253). -/
def fdHospStop_re : RE :=
  .seq fdPre (.seq upperR (.seq (plusG (.cls nameClsD))
    (.seq (.star wsR) (.seq (.lit ['(']) (.seq (.rep 6 digitR) (.lit [')']))))))

/-- Source `r"^[★□⇑uenwW\s\t]*[A-Z][A-Z0-9\s\.'\-&,+/]+,\s*\d+\s+[A-Za-z]"`
(line 256). -/
def fdMilStop_re : RE :=
  .seq fdPre (.seq upperR (.seq (plusG (.cls milClsD))
    (.seq (.lit [',']) (.seq (.star wsR)
      (.seq (plusG digitR) (.seq (plusG wsR) (.cls alphaC)))))))

/-! ### `parse_hospitals` (legacy regex-only parse, lines 268-356) -/

/-- Inner assembly loop of `parse_hospitals` (lines 332-348).  Fuel: each
iteration advances `i` by one, so `lines.length + 1` suffices. -/
def phCollect (lines : List String) : Nat → Nat → String → String × Nat
  | 0, i, acc => (acc, i)
  | fuel+1, i, acc =>
    if i < lines.length then
      let next_line := strip (lines.getD i "")
      if reTest countyStop_re next_line then (acc, i)
      else if reTest hospStop_re next_line then (acc, i)
      else if reTest milStop_re next_line then (acc, i)
      else if startsWithS next_line "Hospitals, U.S." || startsWithS next_line "© 20" then
        phCollect lines fuel (i+1) acc
      else if startsWithS next_line "Hospital, Medicare Provider" then
        phCollect lines fuel (i+1) acc
      else phCollect lines fuel (i+1) (acc ++ " " ++ next_line)
    else (acc, i)

/-- Main loop of `parse_hospitals` (lines 281-354); state is
(index, current_state, current_county, current_city, accumulated output). -/
def phLoop (lines : List String) :
    Nat → Nat → String → String → String → List Hospital → List Hospital
  | 0, _, _, _, _, acc => acc
  | fuel+1, i, cstate, ccounty, ccity, acc =>
    if i < lines.length then
      let line := strip (lines.getD i "")
      match stateHdrMatch line with
      | some st => phLoop lines fuel (i+1) st ccounty ccity acc
      | none =>
      match reMatch county_re line.data with
      | some (_, g) =>
          phLoop lines fuel (i+1) cstate (strip (grpD g 2)) (strip (grpD g 1)) acc
      | none =>
      if containsStr " See " line || endsWithS line " See" || containsStr "(Includes " line then
        phLoop lines fuel (i+1) cstate ccounty ccity acc
      else
        match reMatch hospital_re line.data with
        | some (_, g) =>
            let h0 : Hospital :=
              { name := strip (grpD g 1), medicare_provider_number := grpD g 2,
                state := cstate, county := ccounty, city := ccity }
            let r := phCollect lines (lines.length + 1) (i+1) line
            phLoop lines fuel r.2 cstate ccounty ccity
              (acc ++ [parse_hospital_entry h0 r.1])
        | none =>
        match reMatch noId_re line.data with
        | some (_, g) =>
            let h0 : Hospital :=
              { name := strip (grpD g 1), medicare_provider_number := "",
                state := cstate, county := ccounty, city := ccity }
            let r := phCollect lines (lines.length + 1) (i+1) line
            phLoop lines fuel r.2 cstate ccounty ccity
              (acc ++ [parse_hospital_entry h0 r.1])
        | none => phLoop lines fuel (i+1) cstate ccounty ccity acc
    else acc

/-- Transliteration of `parse_hospitals` (lines 268-356). -/
def parse_hospitals (text : String) : List Hospital :=
  let lines := splitNl text
  phLoop lines (lines.length + 1) 0 "" "" "" []

/-! ### `parse_hospitals_from_font_detection` (lines 176-265) -/

/-- A font-detected entry dict produced by `extract_text_from_pdf`. -/
structure FontEntry where
  name : String := ""
  provider_number : String := ""
  line_text : String := ""
  x : ℚ := 0
  y : ℚ := 0
deriving DecidableEq

/-- First pass of `parse_hospitals_from_font_detection` (lines 197-211):
the state/county map, a list of `(line index, state, city, county)`. -/
def scmGo : List String → Nat → String → List (Nat × String × String × String) →
    List (Nat × String × String × String)
  | [], _, _, acc => acc
  | l :: rest, i, cstate, acc =>
    let line := strip l
    match stateHdrMatch line with
    | some st => scmGo rest (i+1) st acc
    | none =>
      match reMatch county_re line.data with
      | some (_, g) =>
          scmGo rest (i+1) cstate (acc ++ [(i, cstate, strip (grpD g 1), strip (grpD g 2))])
      | none => scmGo rest (i+1) cstate acc

def stateCountyMap (lines : List String) : List (Nat × String × String × String) :=
  scmGo lines 0 "" []

/-- Index of the first line containing `entry_line` or starting with its
first 30 characters (lines 224-225; the raw, unstripped lines are used). -/
def findLineIdx (lines : List String) (entry_line : String) : Option Nat :=
  go lines 0
where
  go : List String → Nat → Option Nat
    | [], _ => none
    | l :: rest, i =>
      if containsStr entry_line l || startsWithS l (takeS 30 entry_line) then some i
      else go rest (i+1)

/-- Most recent map entry strictly before line `i` (lines 227-232). -/
def contextBefore (m : List (Nat × String × String × String)) (i : Nat) :
    Option (String × String × String) :=
  (m.reverse.find? (fun e => e.1 < i)).map (fun e => e.2)

/-- Entry-text assembly of the font-detection parse (lines 236-259):
scan all lines; once the entry line is found, append stripped lines until
a stop pattern. -/
def fdCollect : List String → String → Bool → String → String
  | [], _, _, acc => acc
  | l :: rest, entry_line, found, acc =>
    if !found then
      if containsStr entry_line l || startsWithS l (takeS 30 entry_line) then
        fdCollect rest entry_line true l
      else fdCollect rest entry_line false acc
    else
      let ls := strip l
      if reTest countyStop_re ls then acc
      else if startsWithS ls "Hospitals, U.S." || startsWithS ls "© 20" then
        fdCollect rest entry_line true acc
      else if startsWithS ls "Hospital, Medicare Provider" then
        fdCollect rest entry_line true acc
      else if reTest fdHospStop_re ls then acc
      else if reTest fdMilStop_re ls then acc
      else fdCollect rest entry_line true (acc ++ " " ++ ls)

/-- Transliteration of `parse_hospitals_from_font_detection`
(lines 176-265). -/
def parse_hospitals_from_font_detection (text : String) (entries : List FontEntry) :
    List Hospital :=
  let lines := splitNl text
  let m := stateCountyMap lines
  entries.map (fun entry =>
    let h0 : Hospital :=
      { name := entry.name, medicare_provider_number := entry.provider_number }
    let h1 :=
      match findLineIdx lines entry.line_text with
      | some i =>
          match contextBefore m i with
          | some ctx => { h0 with state := ctx.1, city := ctx.2.1, county := ctx.2.2 }
          | none => h0
      | none => h0
    parse_hospital_entry h1 (fdCollect lines entry.line_text false ""))

/-! ### Font-based record detection in `extract_text_from_pdf`
(lines 101-153) -/

/-- A text span with font information, as delivered by the page source. -/
structure Span where
  text : String := ""
  flags : Nat := 0
  font : String := ""
  size : ℚ := 0
deriving DecidableEq

/-- Bold test `bool(span["flags"] & 16) or "Bold" in span.get("font", "")`. -/
def spanBold (sp : Span) : Bool :=
  (sp.flags &&& 16 != 0) || containsStr "Bold" sp.font

/-- Source `r'^\s*\(\d{6}\)\s*$'` (line 119). -/
def prov_re : RE :=
  .seq (.star wsR) (.seq (.lit ['(']) (.seq (.rep 6 digitR)
    (.seq (.lit [')']) (.seq (.star wsR) .eos))))

/-- Source `r'\d{6}'` (line 120). -/
def six_re : RE := .rep 6 digitR

/-- Class `[A-Z0-9\s\.'\-–—&,+/]` of the bold-name shape check. -/
def nameValCls (c : Char) : Bool :=
  isUpperC c || isDigitC c || pyWs c ||
    inCh ['.', apos, '-', enDash, emDash, '&', ',', '+', '/'] c

/-- Source `r"^[A-Z][A-Z0-9\s\.'\-–—&,+/]+$"` (line 130). -/
def nameShape_re : RE := .seq upperR (.seq (plusG (.cls nameValCls)) .eos)

/-- Source `r'\d+\s+[A-Za-z]'` (line 146). -/
def addrish_re : RE := .seq (plusG digitR) (.seq (plusG wsR) (.cls alphaC))

/-- Span loop of the font detector (lines 110-134); the state is
(bold_name, provider_num, rest_text, found_bold_name). -/
def scanSpans : List Span → String × String × String × Bool → String × String × String × Bool
  | [], st => st
  | sp :: rest, (bold_name, provider, rest_text, found) =>
    let sb := spanBold sp
    let t := sp.text
    if lenS (strip t) ≤ 2 && !sb then
      scanSpans rest (bold_name, provider, rest_text, found)
    else if sb && reTest prov_re t then
      let provider' :=
        match reSearch six_re t.data with
        | some (st', len, _) => (⟨(t.data.drop st').take len⟩ : String)
        | none => provider  -- unreachable: `prov_re` matched, so six digits occur
      scanSpans rest (bold_name, provider', rest_text, found)
    else if sb && !found then
      let name_text := strip t
      let name_text := replaceCh (Char.ofNat 0x2019) apos
        (replaceCh (Char.ofNat 0x2018) apos name_text)
      if name_text ≠ "" && lenS name_text > 5 && reTest nameShape_re name_text then
        scanSpans rest (name_text, provider, rest_text, true)
      else scanSpans rest (bold_name, provider, rest_text, found)
    else if !sb && found then
      scanSpans rest (bold_name, provider, rest_text ++ t, found)
    else scanSpans rest (bold_name, provider, rest_text, found)

/-- The explicit skip-list of lines 142-143: only ten state names. -/
def TEN_STATES : List String :=
  ["ALABAMA", "ALASKA", "ARIZONA", "ARKANSAS", "CALIFORNIA",
   "COLORADO", "CONNECTICUT", "DELAWARE", "FLORIDA", "GEORGIA"]

/-- Validation step of the font detector (lines 136-153). -/
def validateEntry (bold_name provider rest_text line_text : String) : Option FontEntry :=
  if bold_name ≠ "" then
    if startsWithS (strip rest_text) "See " then none
    else if TEN_STATES.contains bold_name then none
    else if provider ≠ "" ||
        (startsWithS (strip rest_text) "," && reFind addrish_re rest_text) then
      some { name := bold_name, provider_number := provider,
             line_text := normalize_text line_text }
    else none
  else none

/-- Per-line font detection of `extract_text_from_pdf` (lines 101-153):
the returned entry, if any, is what gets appended to `hospital_entries`. -/
def detectLine (spans : List Span) (line_text : String) : Option FontEntry :=
  if spans.length ≥ 2 then
    let r := scanSpans spans ("", "", "", false)
    validateEntry r.1 r.2.1 r.2.2.1 line_text
  else none

/-! ### Reading-order reconstruction (lines 74-170) -/

/-- A positioned line on a page. -/
structure PageItem where
  x : ℚ
  y : ℚ
  text : String
deriving DecidableEq

/-- Sort key of the per-column `sort(key=lambda item: item[1])`. -/
def yLe (a b : PageItem) : Prop := a.y ≤ b.y

instance : DecidableRel yLe := fun a b => inferInstanceAs (Decidable (a.y ≤ b.y))

instance : IsTotal PageItem yLe := ⟨fun a b => le_total a.y b.y⟩

instance : IsTrans PageItem yLe := ⟨fun _ _ _ => le_trans⟩

/-- Page reconstruction (lines 155-170): lines whose stripped text is
empty are not bucketed; the remaining lines go to the left bucket when
`x < width / 2`, otherwise to the right bucket; each bucket is sorted by
`y` with a stable sort (Python's `list.sort`; `List.insertionSort` is
also stable), and the page emits left bucket then right bucket. -/
def orderPage (pageWidth : ℚ) (items : List PageItem) : List PageItem :=
  let colSplit := pageWidth / 2
  let kept := items.filter (fun it => strip it.text ≠ "")
  let leftItems := kept.filter (fun it => it.x < colSplit)
  let rightItems := kept.filter (fun it => ¬ (it.x < colSplit))
  leftItems.insertionSort yLe ++ rightItems.insertionSort yLe

/-! ## `extract_sectionb_data.py` (system/network variant) -/

/-- The `HospitalEntry` dataclass.  The Python field `section` is called
`sectionTag` here because `section` is a Lean keyword. -/
structure HospitalEntry where
  healthcare_system : String := ""
  system_id : String := ""
  system_type : String := ""
  system_classification : String := ""
  system_address : String := ""
  system_city : String := ""
  system_state : String := ""
  system_zip : String := ""
  system_telephone : String := ""
  system_ceo : String := ""
  sectionTag : String := ""
  hospital_name : String := ""
  ownership_type : String := ""
  staffed_beds : String := ""
  address : String := ""
  city : String := ""
  state : String := ""
  state_abbrev : String := ""
  zip_code : String := ""
  telephone : String := ""
  contact : String := ""
  web_address : String := ""
deriving DecidableEq

/-- The `STATE_ABBREVS` dictionary (insertion order preserved). -/
def STATE_ABBREVS : List (String × String) :=
  [("ALABAMA", "AL"), ("ALASKA", "AK"), ("ARIZONA", "AZ"), ("ARKANSAS", "AR"),
   ("CALIFORNIA", "CA"), ("COLORADO", "CO"), ("CONNECTICUT", "CT"), ("DELAWARE", "DE"),
   ("FLORIDA", "FL"), ("GEORGIA", "GA"), ("HAWAII", "HI"), ("IDAHO", "ID"),
   ("ILLINOIS", "IL"), ("INDIANA", "IN"), ("IOWA", "IA"), ("KANSAS", "KS"),
   ("KENTUCKY", "KY"), ("LOUISIANA", "LA"), ("MAINE", "ME"), ("MARYLAND", "MD"),
   ("MASSACHUSETTS", "MA"), ("MICHIGAN", "MI"), ("MINNESOTA", "MN"),
   ("MISSISSIPPI", "MS"), ("MISSOURI", "MO"), ("MONTANA", "MT"), ("NEBRASKA", "NE"),
   ("NEVADA", "NV"), ("NEW HAMPSHIRE", "NH"), ("NEW JERSEY", "NJ"),
   ("NEW MEXICO", "NM"), ("NEW YORK", "NY"), ("NORTH CAROLINA", "NC"),
   ("NORTH DAKOTA", "ND"), ("OHIO", "OH"), ("OKLAHOMA", "OK"), ("OREGON", "OR"),
   ("PENNSYLVANIA", "PA"), ("RHODE ISLAND", "RI"), ("SOUTH CAROLINA", "SC"),
   ("SOUTH DAKOTA", "SD"), ("TENNESSEE", "TN"), ("TEXAS", "TX"), ("UTAH", "UT"),
   ("VERMONT", "VT"), ("VIRGINIA", "VA"), ("WASHINGTON", "WA"),
   ("WEST VIRGINIA", "WV"), ("WISCONSIN", "WI"), ("WYOMING", "WY"),
   ("DISTRICT OF COLUMBIA", "DC"), ("PUERTO RICO", "PR"),
   ("AMERICAN SAMOA", "AS"), ("GUAM", "GU"),
   ("NORTHERN MARIANA ISLANDS", "MP"), ("VIRGIN ISLANDS", "VI")]

def US_STATES : List String := STATE_ABBREVS.map (·.1)

/-- Python `STATE_ABBREVS.get(s, '')`. -/
def stateAbbrevGet (s : String) : String :=
  (((STATE_ABBREVS.find? (·.1 == s))).map (·.2)).getD ""

/-- Python `ABBREV_TO_STATE.get(a, '')` (the reversed dictionary; the
abbreviations are pairwise distinct, so `find?` over the pair list agrees
with the dict). -/
def abbrevToState (a : String) : String :=
  (((STATE_ABBREVS.find? (·.2 == a))).map (·.1)).getD ""

/-- `SORTED_STATES`: the state names sorted by length, longest first
(`sorted(US_STATES, key=len, reverse=True)`; lengths of ties are ordered
arbitrarily by Python's set iteration, but no name followed by `':'` is a
prefix of another, so tie order never affects any use).  The theorem
`SORTED_STATES_spec` below checks this list against `US_STATES`. -/
def SORTED_STATES : List String :=
  ["NORTHERN MARIANA ISLANDS", "DISTRICT OF COLUMBIA", "NORTH CAROLINA",
   "SOUTH CAROLINA", "AMERICAN SAMOA", "VIRGIN ISLANDS", "MASSACHUSETTS",
   "NEW HAMPSHIRE", "WEST VIRGINIA", "NORTH DAKOTA", "PENNSYLVANIA",
   "RHODE ISLAND", "SOUTH DAKOTA", "CONNECTICUT", "MISSISSIPPI",
   "PUERTO RICO", "CALIFORNIA", "NEW JERSEY", "NEW MEXICO", "WASHINGTON",
   "LOUISIANA", "MINNESOTA", "TENNESSEE", "WISCONSIN", "ARKANSAS",
   "COLORADO", "DELAWARE", "ILLINOIS", "KENTUCKY", "MARYLAND", "MICHIGAN",
   "MISSOURI", "NEBRASKA", "NEW YORK", "OKLAHOMA", "VIRGINIA", "ALABAMA",
   "ARIZONA", "FLORIDA", "GEORGIA", "INDIANA", "MONTANA", "VERMONT",
   "WYOMING", "ALASKA", "HAWAII", "KANSAS", "NEVADA", "OREGON", "IDAHO",
   "MAINE", "TEXAS", "IOWA", "OHIO", "UTAH", "GUAM"]

/-- First state name (in `SORTED_STATES` order) such that the line starts
with `name + ':'`. -/
def findStateColon (line : String) : Option String :=
  SORTED_STATES.find? (fun st => startsWithS line (st ++ ":"))

/-- Header info dict of a detected system/network header (the fields that
`parse_systems`/`parse_networks`/`build_entry` read; `page_num` and
`target` are only used during extraction-phase bookkeeping). -/
structure SysHdr where
  name : String := ""
  id : String := ""
  typ : String := ""
  sectionTag : String := ""
  line_idx : Nat := 0
deriving DecidableEq

/-- Result dictionary of `parse_system_address_block` (and the network
address block). -/
structure SysAddr where
  address : String := ""
  city : String := ""
  state : String := ""
  zip : String := ""
  telephone : String := ""
  ceo : String := ""
  classification : String := ""
deriving DecidableEq

/-- Result dictionary of `parse_hospital_text` /
`parse_network_hospital_text`. -/
structure PRes where
  hospital_name : String := ""
  ownership_type : String := ""
  staffed_beds : String := ""
  address : String := ""
  city : String := ""
  state : String := ""
  state_abbrev : String := ""
  zip_code : String := ""
  telephone : String := ""
  contact : String := ""
  web_address : String := ""
  sectionTag : String := ""
deriving DecidableEq

/-! ### Patterns of the system/network variant -/

/-- Ownership codes `[OLCS]`. -/
def olcsC (c : Char) : Bool := inCh ['O', 'L', 'C', 'S'] c

/-- The ownership/bed-count core `\((?:[OLCS]|PART),\s*\d+\s*beds?\)`. -/
def bedCore : RE :=
  .seq (.lit ['(']) (.seq (.alt (.cls olcsC) (litS "PART"))
    (.seq (.lit [',']) (.seq (.star wsR) (.seq (plusG digitR)
      (.seq (.star wsR) (.seq (litS "bed") (.seq (.opt (.lit ['s'])) (.lit [')']))))))))

/-- Source `r'^(.+?)\s*\(([OLCS]|PART),\s*(\d+)\s*beds?\)\s*(.*)'` with
`re.DOTALL` (line 731). -/
def hospMatch_re : RE :=
  .seq (.grp 1 (plusL .dotAll)) (.seq (.star wsR)
    (.seq (.lit ['(']) (.seq (.grp 2 (.alt (.cls olcsC) (litS "PART")))
      (.seq (.lit [',']) (.seq (.star wsR) (.seq (.grp 3 (plusG digitR))
        (.seq (.star wsR) (.seq (litS "bed") (.seq (.opt (.lit ['s']))
          (.seq (.lit [')']) (.seq (.star wsR) (.grp 4 (.star .dotAll)))))))))))))

/-- Source `r'Zip\s+(\d{5}(?:-\d{4})?)'` (ASCII hyphen; lines 373, 556, 778). -/
def zipS_re : RE :=
  .seq (litS "Zip") (.seq (plusG wsR)
    (.grp 1 (.seq (.rep 5 digitR) (.opt (.seq (.lit ['-']) (.rep 4 digitR))))))

/-- Source `r'^(.+?),\s*([A-Z]{2}),\s*Zip'` (line 783). -/
def addrS1_re : RE :=
  .seq (.grp 1 (plusL .dot)) (.seq (.lit [',']) (.seq (.star wsR)
    (.seq (.grp 2 (.rep 2 upperR)) (.seq (.lit [',']) (.seq (.star wsR) (litS "Zip"))))))

/-- Source `r'^(.+?),\s*Zip'` (line 788). -/
def addrS2_re : RE :=
  .seq (.grp 1 (plusL .dot)) (.seq (.lit [',']) (.seq (.star wsR) (litS "Zip")))

/-- Source `r',\s*([A-Z]{2})\s*$'` (line 791). -/
def stEnd_re : RE :=
  .seq (.lit [',']) (.seq (.star wsR) (.seq (.grp 1 (.rep 2 upperR))
    (.seq (.star wsR) .eos)))

/-- Source `r',?\s*([A-Z]{2})\s*$'` (lines 389 and 569). -/
def stEndOpt_re : RE :=
  .seq (.opt (.lit [','])) (.seq (.star wsR) (.seq (.grp 1 (.rep 2 upperR))
    (.seq (.star wsR) .eos)))

/-- Source `r'tel\.\s*([\d/\-]+)'` (system/network address blocks,
lines 377 and 559). -/
def telS0_re : RE :=
  .seq (litS "tel.") (.seq (.star wsR)
    (.grp 1 (plusG (.cls (fun c => isDigitC c || c == '/' || c == '-')))))

/-- Source `r'tel\.\s*([\d/\-]+(?:\s+\d+)?)'` (line 799). -/
def telS_re : RE :=
  .seq (litS "tel.") (.seq (.star wsR)
    (.grp 1 (.seq (plusG (.cls (fun c => isDigitC c || c == '/' || c == '-')))
      (.opt (.seq (plusG wsR) (plusG digitR))))))

/-- Source `r'-\s+(\d+)'` used via `re.sub(..., r'-\1', phone)` (line 803). -/
def telMerge_re : RE :=
  .seq (.lit ['-']) (.seq (plusG wsR) (.grp 1 (plusG digitR)))

/-- Source `r'^(\d+)[,;\s]*(.*)'` (line 814). -/
def digitsCont_re : RE :=
  .seq (.grp 1 (plusG digitR))
    (.seq (.star (.cls (fun c => c == ',' || c == ';' || pyWs c))) (.grp 2 (.star .dot)))

/-- Source `r'\s*Web address\s*:'` used via `re.split(..., maxsplit=1)`
(line 819). -/
def webSplit_re : RE :=
  .seq (.star wsR) (.seq (litS "Web address") (.seq (.star wsR) (.lit [':'])))

/-- Source `r'Web address\s*:\s*(\S+)'` (line 825). -/
def webS_re : RE :=
  .seq (litS "Web address") (.seq (.star wsR) (.seq (.lit [':'])
    (.seq (.star wsR) (.grp 1 (plusG nonWsR)))))

/-- Source `r'^\((.+?)\)\s*$'` (classification line, line 333). -/
def classLazy_re : RE :=
  .seq (.lit ['(']) (.seq (.grp 1 (plusL .dot)) (.seq (.lit [')'])
    (.seq (.star wsR) .eos)))

/-- Source `r'^\((.+)\)\s*$'` (greedy capture variant, line 443). -/
def classGreedy_re : RE :=
  .seq (.lit ['(']) (.seq (.grp 1 (plusG .dot)) (.seq (.lit [')'])
    (.seq (.star wsR) .eos)))

/-- Source `r'^\(.+\)\s*$'` (line 441 and collect loop line 651). -/
def parenLine_re : RE :=
  .seq (.lit ['(']) (.seq (plusG .dot) (.seq (.lit [')']) (.seq (.star wsR) .eos)))

/-- Source `r'^[A-Z].*\((?:[OLCS]|PART),\s*\d+\s*beds?\)'`
(lines 347, 476 as search target, 499, 655). -/
def bedLine_re : RE := .seq upperR (.seq (.star .dot) bedCore)

/-- Source `r'^\((?:[OLCS]|PART),\s*\d+\s*beds?\)'` (line 681). -/
def bedStart_re : RE := bedCore

/-- The bed pattern as a search target,
`re.search(r'\((?:[OLCS]|PART),\s*\d+\s*beds?\)', ...)`. -/
def bedSearch_re : RE := bedCore

/-- Source `r'^[A-Z]'`. -/
def upperStart_re : RE := upperR

/-- Source `r'^\d'`. -/
def digitStart_re : RE := digitR

/-- Source `r'^[w\s]*\d{4}:\s+[A-Z]'` (system-header shape, lines 476,
495, 685). -/
def sysHdr_re : RE :=
  .seq (.star (.cls (fun c => c == 'w' || pyWs c)))
    (.seq (.rep 4 digitR) (.seq (.lit [':']) (.seq (plusG wsR) upperR)))

/-- Source `r'^(\d+\s+(hospitals|beds)|Contract|Totals)'` (line 434). -/
def summary_re : RE :=
  .alt (.seq (plusG digitR) (.seq (plusG wsR) (.alt (litS "hospitals") (litS "beds"))))
    (.alt (litS "Contract") (litS "Totals"))

/-- Class `[A-Z\s\.\'\-&,+/()]` of the network record start. -/
def netCls (c : Char) : Bool :=
  isUpperC c || pyWs c || inCh ['.', apos, '-', '&', ',', '+', '/', '(', ')'] c

/-- Source `r'^[A-Z][A-Z\s\.\'\-&,+/()]+,\s*\d+'` (lines 610 and 709). -/
def netHosp_re : RE :=
  .seq upperR (.seq (plusG (.cls netCls)) (.seq (.lit [','])
    (.seq (.star wsR) (plusG digitR))))

/-- Source `r'^(.+?),\s*(\d+\s+.+)'` with `re.DOTALL` (line 761). -/
def netName1_re : RE :=
  .seq (.grp 1 (plusL .dotAll)) (.seq (.lit [',']) (.seq (.star wsR)
    (.grp 2 (.seq (plusG digitR) (.seq (plusG wsR) (plusG .dotAll))))))

/-- Source `r'^(.+?),\s*(P\s*O\s+Box.+)'` with `re.DOTALL` (line 763). -/
def netName2_re : RE :=
  .seq (.grp 1 (plusL .dotAll)) (.seq (.lit [',']) (.seq (.star wsR)
    (.grp 2 (.seq (.lit ['P']) (.seq (.star wsR) (.seq (.lit ['O'])
      (.seq (plusG wsR) (.seq (litS "Box") (plusG .dotAll)))))))))

/-- Class `[A-Z\s\.\'\-&+/]` of the wrapped-hospital-name check (no comma,
no parentheses; line 661). -/
def wrapCls (c : Char) : Bool :=
  isUpperC c || pyWs c || inCh ['.', apos, '-', '&', '+', '/'] c

/-- Source `r'^[A-Z][A-Z\s\.\'\-&+/]+'` (line 661). -/
def wrapName_re : RE := .seq upperR (plusG (.cls wrapCls))

/-- Source `r'^(Web address|Zip\s|tel\.|www\.)'` with `re.IGNORECASE`
(line 664). -/
def contIC_re : RE :=
  .alt (.litIC "Web address".data)
    (.alt (.seq (.litIC "Zip".data) wsR)
      (.alt (.litIC "tel.".data) (.litIC "www.".data)))

/-- Source `r'(,\s*[A-Z]{2},\s*Zip|beds?\))'` (line 665, searched). -/
def contSearch_re : RE :=
  .alt (.seq (.lit [',']) (.seq (.star wsR) (.seq (.rep 2 upperR)
      (.seq (.lit [',']) (.seq (.star wsR) (litS "Zip"))))))
    (.seq (litS "bed") (.seq (.opt (.lit ['s'])) (.lit [')'])))

/-! ### Field-level parsing of the system/network variant -/

/-- Prefix of `s` before the first occurrence of `needle` (`s.split(needle)[0]`);
`s` itself when `needle` does not occur. -/
def beforeFirst (needle : String) (s : String) : String :=
  ⟨go s.data⟩
where
  go : List Char → List Char
    | [] => []
    | c :: cs =>
      if needle.data.isPrefixOf (c :: cs) then []
      else c :: go cs

/-- Python `s.rsplit(',', 1)` when it yields two parts (`none` when `s`
contains no comma). -/
def rsplitComma1 (s : String) : Option (String × String) :=
  match (s.data.reverse).findIdx? (· = ',') with
  | none => none
  | some k =>
      let n := s.data.length
      some (⟨s.data.take (n - 1 - k)⟩, ⟨s.data.drop (n - k)⟩)

/-! `_parse_address_block` (lines 775-827) is transliterated as one named
step per source stanza, composed in source order; the source mutates
`result`, here each step returns the updated record. -/

/-- Zip step (lines 777-780). -/
def pabZip (remainder : String) (r : PRes) : PRes :=
  match reSearch zipS_re remainder.data with
  | some (_, _, g) => { r with zip_code := grpD g 1 }
  | none => r

/-- Address / state-abbreviation step (lines 782-796). -/
def pabAddr (remainder : String) (r : PRes) : PRes :=
  match reMatch addrS1_re remainder.data with
  | some (_, g) =>
      { r with address := rstripCh ',' (strip (grpD g 1)), state_abbrev := grpD g 2 }
  | none =>
    match reMatch addrS2_re remainder.data with
    | some (_, g) =>
        let addr_text := strip (grpD g 1)
        match reSearch stEnd_re addr_text.data with
        | some (st, _, g2) =>
            { r with state_abbrev := grpD g2 1,
                     address := rstripCh ',' (strip (takeS st addr_text)) }
        | none => { r with address := addr_text }
    | none => r

/-- Telephone and contact step (lines 798-822; the two source stanzas
share `tel_match`, and the contact stanza may extend the telephone with
continuation digits, so they form one step). -/
def pabTelContact (remainder : String) (r : PRes) : PRes :=
  match reSearch telS_re remainder.data with
  | none => r
  | some (st, len, g) =>
    -- re.sub(r'-\s+(\d+)', r'-\1', phone)
    let phone : String :=
      ⟨reSubAll telMerge_re (fun gg _ => '-' :: (grpD gg 1).data) (grpD g 1).data⟩
    let r1 := { r with telephone := phone }
    let after_tel := lstripPunct (dropS (st + len) remainder)
    -- Phone still truncated: grab continuation digits
    let step2 : PRes × String :=
      if endsWithS r1.telephone "-" then
        match reMatch digitsCont_re after_tel.data with
        | some (_, g2) =>
            ({ r1 with telephone := r1.telephone ++ grpD g2 1 },
             lstripPunct (strip (grpD g2 2)))
        | none => (r1, after_tel)
      else (r1, after_tel)
    let contact_text := strip ⟨reSplitFirst webSplit_re step2.2.data⟩
    if contact_text ≠ "" then { step2.1 with contact := rstripCh '.' contact_text }
    else step2.1

/-- Web-address step (lines 824-827). -/
def pabWeb (remainder : String) (r : PRes) : PRes :=
  match reSearch webS_re remainder.data with
  | some (_, _, g) => { r with web_address := strip (grpD g 1) }
  | none => r

/-- Transliteration of `_parse_address_block` (lines 775-827). -/
def parseAddressBlock (result : PRes) (remainder : String) : PRes :=
  pabWeb remainder (pabTelContact remainder (pabAddr remainder (pabZip remainder result)))

/-- Transliteration of `parse_hospital_text` (lines 718-745). -/
def parse_hospital_text (text state state_abbrev : String) : PRes :=
  let base : PRes := { state := state, state_abbrev := state_abbrev, sectionTag := "Systems" }
  let t := strip text
  match reMatch hospMatch_re t.data with
  | none => base
  | some (_, g) =>
      parseAddressBlock
        { base with hospital_name := strip (grpD g 1), ownership_type := grpD g 2,
                    staffed_beds := grpD g 3 }
        (strip (grpD g 4))

/-- Transliteration of `parse_network_hospital_text` (lines 748-772). -/
def parse_network_hospital_text (text state state_abbrev : String) : PRes :=
  let base : PRes := { state := state, state_abbrev := state_abbrev, sectionTag := "Networks" }
  let t := strip text
  match reMatch netName1_re t.data with
  | some (_, g) =>
      parseAddressBlock { base with hospital_name := strip (grpD g 1) } (strip (grpD g 2))
  | none =>
      match reMatch netName2_re t.data with
      | some (_, g) =>
          parseAddressBlock { base with hospital_name := strip (grpD g 1) } (strip (grpD g 2))
      | none => { base with hospital_name := t }

/-- Transliteration of `build_entry` (lines 830-860). -/
def build_entry (hdr : SysHdr) (addr : SysAddr) (result : PRes) : HospitalEntry :=
  let e : HospitalEntry :=
    { healthcare_system := hdr.name, system_id := hdr.id, system_type := hdr.typ,
      system_classification := addr.classification, system_address := addr.address,
      system_city := addr.city, system_state := addr.state, system_zip := addr.zip,
      system_telephone := addr.telephone, system_ceo := addr.ceo,
      sectionTag := result.sectionTag,
      hospital_name := result.hospital_name, ownership_type := result.ownership_type,
      staffed_beds := result.staffed_beds, address := result.address,
      city := result.city, state := result.state, state_abbrev := result.state_abbrev,
      zip_code := result.zip_code, telephone := result.telephone,
      contact := result.contact, web_address := result.web_address }
  -- Derive full state name from abbreviation if missing
  if e.state = "" && e.state_abbrev ≠ "" then { e with state := abbrevToState e.state_abbrev }
  else e

/-- Python `entries.append(entry)` guarded by `if entry.hospital_name:`. -/
def pushEntry (acc : List HospitalEntry) (e : HospitalEntry) : List HospitalEntry :=
  if e.hospital_name ≠ "" then acc ++ [e] else acc

/-! ### `parse_system_address_block` (lines 313-400) -/

/-- The 1-to-2-line lookahead of lines 351-362 (`for la in range(1, 3)`
with a `for`/`else`): returns the accumulated `look` when the loop breaks
(scope end reached, or bed pattern found), `none` when it completes. -/
def sysAddrLookGo (lines : List String) (end_idx i : Nat) : Nat → Nat → String → Option String
  | 0, _, _ => none
  | rem+1, la, look =>
    if i + la ≥ end_idx then some look
    else
      let nl := strip (lines.getD (i + la) "")
      if nl = "" then sysAddrLookGo lines end_idx i rem (la+1) look
      else
        let look' := look ++ " " ++ nl
        if reFind bedSearch_re look' then some look'
        else sysAddrLookGo lines end_idx i rem (la+1) look'

def sysAddrLook (lines : List String) (end_idx i : Nat) (line : String) : Option String :=
  sysAddrLookGo lines end_idx i 2 1 line

/-- Scanning loop of `parse_system_address_block` (lines 324-368); state is
(index, accumulated block text, result).  Returns (result, block text,
next index). -/
def psabLoop (lines : List String) (end_idx : Nat) :
    Nat → Nat → String → SysAddr → SysAddr × String × Nat
  | 0, i, block_text, res => (res, block_text, i)
  | fuel+1, i, block_text, res =>
    if i < end_idx then
      let line := strip (lines.getD i "")
      if line = "" then psabLoop lines end_idx fuel (i+1) block_text res
      else
        let clsStep : Option SysAddr :=
          match reMatch classLazy_re line.data with
          | some (_, g) =>
              let val := grpD g 1
              if containsStr "System" val || containsStr "Health" val then
                some { res with classification := val }
              else none
          | none => none
        match clsStep with
        | some res' => (res', block_text, i+1)
        | none =>
          if (findStateColon line).isSome then (res, block_text, i)
          else if reTest bedLine_re line then (res, block_text, i)
          else
            let wrapStop : Bool :=
              if reTest upperStart_re line then
                match sysAddrLook lines end_idx i line with
                | some look => reFind bedSearch_re look
                | none => false
              else false
            if wrapStop then (res, block_text, i)
            else psabLoop lines end_idx fuel (i+1) (block_text ++ " " ++ line) res
    else (res, block_text, i)

/-- Transliteration of `parse_system_address_block` (lines 313-400). -/
def parse_system_address_block (lines : List String) (start_idx end_idx : Nat) :
    SysAddr × Nat := Id.run do
  let r0 := psabLoop lines end_idx (lines.length + 1) start_idx "" {}
  let mut res := r0.1
  let block_text := strip r0.2.1
  let i := r0.2.2
  if let some (_, _, g) := reSearch zipS_re block_text.data then
    res := { res with zip := grpD g 1 }
  let telM := reSearch telS0_re block_text.data
  if let some (_, _, g) := telM then
    res := { res with telephone := grpD g 1 }
  if let some (st, len, _) := telM then
    let after_tel := lstripPunct (dropS (st + len) block_text)
    if after_tel ≠ "" then
      res := { res with ceo := rstripCh '.' (strip after_tel) }
  let addr_parts := if containsStr "Zip" block_text then beforeFirst "Zip" block_text else ""
  if addr_parts ≠ "" then
    if let some (st, _, g) := reSearch stEndOpt_re (strip addr_parts).data then
      res := { res with state := grpD g 1 }
      let before_state := strip (takeS st addr_parts)
      match rsplitComma1 before_state with
      | some p => res := { res with address := strip p.1, city := strip p.2 }
      | none => res := { res with address := before_state }
  return (res, i)

/-! ### `collect_hospital_text` (lines 628-691) and
`collect_network_hospital_text` (lines 694-715) -/

/-- The 1-to-2-line lookahead of lines 670-678: `true` iff the bed pattern
appears in some accumulated `look` (which makes the collector stop). -/
def chtLookGo (lines : List String) (endi i : Nat) : Nat → Nat → String → Bool
  | 0, _, _ => false
  | rem+1, la, look =>
    if i + la ≥ endi then false
    else
      let nl := strip (lines.getD (i + la) "")
      if nl = "" then chtLookGo lines endi i rem (la+1) look
      else
        let look' := look ++ " " ++ nl
        if reFind bedSearch_re look' then true
        else chtLookGo lines endi i rem (la+1) look'

def chtLookFound (lines : List String) (endi i : Nat) (line : String) : Bool :=
  chtLookGo lines endi i 2 1 line

/-- Transliteration of `collect_hospital_text` (lines 628-691); every
`break`/`return` path yields `(collected.strip(), i)`. -/
def chtLoop (lines : List String) (endi : Nat) : Nat → Nat → String → String × Nat
  | 0, i, collected => (strip collected, i)
  | fuel+1, i, collected =>
    if i < endi then
      let line := strip (lines.getD i "")
      if line = "" then chtLoop lines endi fuel (i+1) collected
      else if (findStateColon line).isSome then (strip collected, i)
      else if startsWithS line "Owned, leased, sponsored:" ||
          startsWithS line "Contract-managed:" || startsWithS line "Totals:" then
        (strip collected, i)
      else if reTest parenLine_re line &&
          (containsStr "System" line || containsStr "Health" line) then
        (strip collected, i)
      else if collected ≠ "" && reTest bedLine_re line then (strip collected, i)
      else
        let wrapStop : Bool :=
          if collected ≠ "" && reTest wrapName_re line then
            let is_continuation := reTest contIC_re line || reFind contSearch_re line ||
              reTest digitStart_re line
            if !is_continuation then
              chtLookFound lines endi i line ||
                (let next_l := if i + 1 < endi then strip (lines.getD (i+1) "") else ""
                 reTest bedStart_re next_l)
            else false
          else false
        if wrapStop then (strip collected, i)
        else if reTest sysHdr_re line then (strip collected, i)
        else chtLoop lines endi fuel (i+1) (collected ++ " " ++ line)
    else (strip collected, i)

def collect_hospital_text (lines : List String) (i endi : Nat) : String × Nat :=
  chtLoop lines endi (lines.length + 1) i ""

/-- Transliteration of `collect_network_hospital_text` (lines 694-715). -/
def cnhLoop (lines : List String) (endi : Nat) : Nat → Nat → String → String × Nat
  | 0, i, collected => (strip collected, i)
  | fuel+1, i, collected =>
    if i < endi then
      let line := strip (lines.getD i "")
      if line = "" then cnhLoop lines endi fuel (i+1) collected
      else if US_STATES.contains line then (strip collected, i)
      else if collected ≠ "" && reTest netHosp_re line then (strip collected, i)
      else cnhLoop lines endi fuel (i+1) (collected ++ " " ++ line)
    else (strip collected, i)

def collect_network_hospital_text (lines : List String) (i endi : Nat) : String × Nat :=
  cnhLoop lines endi (lines.length + 1) i ""

/-! ### `parse_systems` (lines 403-526) -/

/-- Summary-block skip loop (lines 428-438). -/
def skipSummaryLoop (lines : List String) (sys_end : Nat) : Nat → Nat → Nat
  | 0, i => i
  | fuel+1, i =>
    if i < sys_end then
      let l := strip (lines.getD i "")
      if l = "" then i + 1
      else if reTest summary_re l then skipSummaryLoop lines sys_end fuel (i+1)
      else i
    else i

/-- The bed-pattern lookahead of lines 484-509: returns
(combined text, lines consumed, bed pattern found). -/
def psLookGo (lines : List String) (sys_end i : Nat) : Nat → Nat → String → Nat → String × Nat × Bool
  | 0, _, combined, consumed => (combined, consumed, false)
  | rem+1, la, combined, consumed =>
    if i + la ≥ sys_end then (combined, consumed, false)
    else
      let next_l := strip (lines.getD (i + la) "")
      if next_l = "" then psLookGo lines sys_end i rem (la+1) combined consumed
      else
        let is_state := (findStateColon next_l).isSome
        let is_system := reTest sysHdr_re next_l
        let is_summary := startsWithS next_l "Owned, leased" ||
          startsWithS next_l "Contract-managed" || startsWithS next_l "Totals:"
        let is_new_hosp := reTest bedLine_re next_l
        if is_state || is_system || is_summary || is_new_hosp then (combined, consumed, false)
        else
          let combined' := combined ++ " " ++ next_l
          if reFind bedSearch_re combined' then (combined', la, true)
          else psLookGo lines sys_end i rem (la+1) combined' la

def psLookahead (lines : List String) (sys_end i : Nat) (line : String) : String × Nat × Bool :=
  psLookGo lines sys_end i 2 1 line 0

/-- Main loop of `parse_systems` for one system (lines 417-524); state is
(index, current_state, current_state_abbrev, sys_addr, output). -/
def psLoop (lines : List String) (sys_end : Nat) (hdr : SysHdr) :
    Nat → Nat → String → String → SysAddr → List HospitalEntry → List HospitalEntry
  | 0, _, _, _, _, acc => acc
  | fuel+1, i, cst, cab, sys_addr, acc =>
    if i < sys_end then
      let line := strip (lines.getD i "")
      if line = "" then psLoop lines sys_end hdr fuel (i+1) cst cab sys_addr acc
      else if startsWithS line "Owned, leased, sponsored:" ||
          startsWithS line "Contract-managed:" || startsWithS line "Totals:" then
        psLoop lines sys_end hdr fuel
          (skipSummaryLoop lines sys_end (lines.length + 1) (i+1)) cst cab sys_addr acc
      else if reTest parenLine_re line &&
          (containsStr "System" line || containsStr "Health" line) then
        let sys_addr' :=
          if sys_addr.classification = "" then
            match reMatch classGreedy_re line.data with
            | some (_, g) => { sys_addr with classification := grpD g 1 }
            | none => sys_addr
          else sys_addr
        psLoop lines sys_end hdr fuel (i+1) cst cab sys_addr' acc
      else
        match findStateColon line with
        | some state_found =>
            let cab' := stateAbbrevGet state_found
            let after_state := strip (dropS (lenS state_found + 1) line)
            if after_state ≠ "" then
              let r := collect_hospital_text lines (i+1) sys_end
              let result := parse_hospital_text (after_state ++ " " ++ r.1) state_found cab'
              let entry := build_entry hdr sys_addr result
              psLoop lines sys_end hdr fuel r.2 state_found cab' sys_addr (pushEntry acc entry)
            else psLoop lines sys_end hdr fuel (i+1) state_found cab' sys_addr acc
        | none =>
          if reTest upperStart_re line && !(reTest sysHdr_re line) then
            let c :=
              if reFind bedSearch_re line then (line, 0, true)
              else psLookahead lines sys_end i line
            if c.2.2 then
              let r := collect_hospital_text lines (i + 1 + c.2.1) sys_end
              let result := parse_hospital_text (c.1 ++ " " ++ r.1) cst cab
              let entry := build_entry hdr sys_addr result
              psLoop lines sys_end hdr fuel r.2 cst cab sys_addr (pushEntry acc entry)
            else psLoop lines sys_end hdr fuel (i+1) cst cab sys_addr acc
          else psLoop lines sys_end hdr fuel (i+1) cst cab sys_addr acc
    else acc

/-- Transliteration of `parse_systems` (lines 403-526). -/
def parse_systems (lines : List String) (system_headers : List SysHdr) :
    List HospitalEntry :=
  go system_headers []
where
  go : List SysHdr → List HospitalEntry → List HospitalEntry
    | [], acc => acc
    | hdr :: rest, acc =>
      let sys_end := match rest with
        | h2 :: _ => h2.line_idx
        | [] => lines.length
      let r := parse_system_address_block lines (hdr.line_idx + 1) sys_end
      go rest (psLoop lines sys_end hdr (lines.length + 1) r.2 "" "" r.1 acc)

/-! ### `parse_networks` (lines 529-625) -/

/-- Network address-block loop (lines 541-554). -/
def pnBlockLoop (lines : List String) (net_end : Nat) : Nat → Nat → String → String × Nat
  | 0, i, bt => (bt, i)
  | fuel+1, i, bt =>
    if i < net_end then
      let line := strip (lines.getD i "")
      if line = "" then pnBlockLoop lines net_end fuel (i+1) bt
      else
        let bt' := bt ++ " " ++ line
        if containsStr "tel." line then (bt', i+1)
        else pnBlockLoop lines net_end fuel (i+1) bt'
    else (bt, i)

/-- Backward scan for a standalone state-name line (lines 584-592);
`j` runs from `net_start - 1` down to `max(0, net_start - 30) + 1`
(Python's `range(net_start - 1, max(0, net_start - 30), -1)`). -/
def backScanGo (lines : List String) : Nat → Nat → Option String
  | 0, _ => none
  | steps+1, j =>
    let line := strip (lines.getD j "")
    match SORTED_STATES.find? (fun st => line == st) with
    | some st => some st
    | none => if j = 0 then none else backScanGo lines steps (j-1)

def backScan (lines : List String) (net_start : Nat) : String :=
  let stop := if net_start ≥ 30 then net_start - 30 else 0
  (backScanGo lines (net_start - 1 - stop) (net_start - 1)).getD ""

/-- Hospital loop of `parse_networks` (lines 595-623). -/
def pnLoop (lines : List String) (net_end : Nat) (hdr : SysHdr) (net_addr : SysAddr) :
    Nat → Nat → String → String → List HospitalEntry → List HospitalEntry
  | 0, _, _, _, acc => acc
  | fuel+1, i, cst, cab, acc =>
    if i < net_end then
      let line := strip (lines.getD i "")
      if line = "" then pnLoop lines net_end hdr net_addr fuel (i+1) cst cab acc
      else if US_STATES.contains line then
        pnLoop lines net_end hdr net_addr fuel (i+1) line (stateAbbrevGet line) acc
      else if reTest netHosp_re line then
        let r := collect_network_hospital_text lines (i+1) net_end
        let result := parse_network_hospital_text (line ++ " " ++ r.1) cst cab
        let entry := build_entry hdr net_addr result
        pnLoop lines net_end hdr net_addr fuel r.2 cst cab (pushEntry acc entry)
      else pnLoop lines net_end hdr net_addr fuel (i+1) cst cab acc
    else acc

/-- Network address block parsing (lines 538-576). -/
def parse_network_address (lines : List String) (net_start net_end : Nat) :
    SysAddr × Nat := Id.run do
  let rb := pnBlockLoop lines net_end (lines.length + 1) (net_start + 1) ""
  let block_text := strip rb.1
  let mut na : SysAddr := {}
  if let some (_, _, g) := reSearch zipS_re block_text.data then
    na := { na with zip := grpD g 1 }
  let telM := reSearch telS0_re block_text.data
  if let some (_, _, g) := telM then
    na := { na with telephone := grpD g 1 }
  if let some (st, len, _) := telM then
    let after_tel := lstripPunct (dropS (st + len) block_text)
    if after_tel ≠ "" then
      na := { na with ceo := rstripCh '.' (strip after_tel) }
  let addr_parts := if containsStr "Zip" block_text then beforeFirst "Zip" block_text else ""
  if addr_parts ≠ "" then
    if let some (st, _, g) := reSearch stEndOpt_re (strip addr_parts).data then
      na := { na with state := grpD g 1 }
      let before_state := strip (takeS st addr_parts)
      -- unlike the system block, only a two-part rsplit sets address/city
      if let some p := rsplitComma1 before_state then
        na := { na with address := strip p.1, city := strip p.2 }
  return (na, rb.2)

/-- Transliteration of `parse_networks` (lines 529-625). -/
def parse_networks (lines : List String) (network_headers : List SysHdr) :
    List HospitalEntry :=
  go network_headers []
where
  go : List SysHdr → List HospitalEntry → List HospitalEntry
    | [], acc => acc
    | hdr :: rest, acc =>
      let net_end := match rest with
        | h2 :: _ => h2.line_idx
        | [] => lines.length
      let r := parse_network_address lines hdr.line_idx net_end
      let cst := backScan lines hdr.line_idx
      let cab := stateAbbrevGet cst
      go rest (pnLoop lines net_end hdr r.1 (lines.length + 1) r.2 cst cab acc)

/-! ### Specification apparatus -/

/-- Capture-group indices occurring in a pattern. -/
def grpIdxs : RE → List Nat
  | .seq a b | .alt a b => grpIdxs a ++ grpIdxs b
  | .opt a | .star a | .starL a | .rep _ a => grpIdxs a
  | .grp i a => i :: grpIdxs a
  | _ => []

/-- Relational semantics of a successful engine match: `RunSpec re u g g'`
says pattern `re` can consume exactly the characters `u`, turning the
capture environment `g` into `g'`.  (For `litIC` only the consumed length
is recorded, which is all the development needs.)  The theorem
`runF_sound` below shows every result the engine returns is of this
shape. -/
inductive RunSpec : RE → List Char → Caps → Caps → Prop where
  | eps {g} : RunSpec .eps [] g g
  | eos {g} : RunSpec .eos [] g g
  | dot {c g} : c ≠ '\n' → RunSpec .dot [c] g g
  | dotAll {c g} : RunSpec .dotAll [c] g g
  | cls {p c g} : p c = true → RunSpec (.cls p) [c] g g
  | lit {cs g} : RunSpec (.lit cs) cs g g
  | litIC {cs u g} : u.length = cs.length → RunSpec (.litIC cs) u g g
  | seq {a b u v g g1 g2} : RunSpec a u g g1 → RunSpec b v g1 g2 →
      RunSpec (.seq a b) (u ++ v) g g2
  | altL {a b u g g1} : RunSpec a u g g1 → RunSpec (.alt a b) u g g1
  | altR {a b u g g1} : RunSpec b u g g1 → RunSpec (.alt a b) u g g1
  | optSome {a u g g1} : RunSpec a u g g1 → RunSpec (.opt a) u g g1
  | optNone {a g} : RunSpec (.opt a) [] g g
  | starNil {a g} : RunSpec (.star a) [] g g
  | starCons {a u v g g1 g2} : RunSpec a u g g1 → RunSpec (.star a) v g1 g2 →
      RunSpec (.star a) (u ++ v) g g2
  | starLNil {a g} : RunSpec (.starL a) [] g g
  | starLCons {a u v g g1 g2} : RunSpec a u g g1 → RunSpec (.starL a) v g1 g2 →
      RunSpec (.starL a) (u ++ v) g g2
  | rep0 {a g} : RunSpec (.rep 0 a) [] g g
  | repS {n a u v g g1 g2} : RunSpec a u g g1 → RunSpec (.rep n a) v g1 g2 →
      RunSpec (.rep (n+1) a) (u ++ v) g g2
  | grp {i a u g g1} : RunSpec a u g g1 → RunSpec (.grp i a) u g (setCap i u g1)

/-- The ownership codes of the `([OLCS]|PART, N beds)` anchor. -/
def OWN : List String := ["O", "L", "C", "S", "PART"]

/-- Output invariant of a Systems hospital entry (claim C10). -/
def GoodSys (e : HospitalEntry) : Prop :=
  e.hospital_name ≠ "" ∧ e.ownership_type ∈ OWN ∧ e.staffed_beds ≠ "" ∧
  e.staffed_beds.data.all isDigitC = true

/-! ## Theorems -/

/-- Sanity check: the hard-coded `SORTED_STATES` list is `US_STATES`
sorted by length, longest first. -/
theorem SORTED_STATES_spec :
    SORTED_STATES.Perm US_STATES ∧
    SORTED_STATES.Sorted (fun a b => b.length ≤ a.length) := by
  constructor
  · decide
  · decide

set_option maxRecDepth 400000 in
/-- Claim C1, counterexample.  On the spec's own input
`CITY GENERAL (O, 120 beds) 100 Main St, Springfield, IL, Zip 62701`,
the claimed field values do not all hold: `_parse_address_block` never
splits a city out of a Systems hospital address, so `address` is
`"100 Main St, Springfield"` (not `"100 Main St"`) and `city` is empty
(not `"Springfield"`). -/
theorem C1_counterexample :
    ¬ (let r := parse_hospital_text
        "CITY GENERAL (O, 120 beds) 100 Main St, Springfield, IL, Zip 62701" "" ""
       r.ownership_type = "O" ∧ r.staffed_beds = "120" ∧ r.address = "100 Main St" ∧
       r.city = "Springfield" ∧ r.state_abbrev = "IL" ∧ r.zip_code = "62701") := by
  decide

set_option maxRecDepth 400000 in
/-- Claim C1, amended: parsing the hospital line
`CITY GENERAL (O, 120 beds) 100 Main St, Springfield, IL, Zip 62701`
yields ownership `"O"`, bed count `"120"`, state abbreviation `"IL"`,
zip `"62701"`, but the street and city stay together in
`address = "100 Main St, Springfield"` and `city` is the empty string. -/
theorem C1_amended :
    (parse_hospital_text
      "CITY GENERAL (O, 120 beds) 100 Main St, Springfield, IL, Zip 62701" "" "").hospital_name = "CITY GENERAL" ∧
    (parse_hospital_text
      "CITY GENERAL (O, 120 beds) 100 Main St, Springfield, IL, Zip 62701" "" "").ownership_type = "O" ∧
    (parse_hospital_text
      "CITY GENERAL (O, 120 beds) 100 Main St, Springfield, IL, Zip 62701" "" "").staffed_beds = "120" ∧
    (parse_hospital_text
      "CITY GENERAL (O, 120 beds) 100 Main St, Springfield, IL, Zip 62701" "" "").address = "100 Main St, Springfield" ∧
    (parse_hospital_text
      "CITY GENERAL (O, 120 beds) 100 Main St, Springfield, IL, Zip 62701" "" "").city = "" ∧
    (parse_hospital_text
      "CITY GENERAL (O, 120 beds) 100 Main St, Springfield, IL, Zip 62701" "" "").state_abbrev = "IL" ∧
    (parse_hospital_text
      "CITY GENERAL (O, 120 beds) 100 Main St, Springfield, IL, Zip 62701" "" "").zip_code = "62701" := by
  decide

set_option maxRecDepth 400000 in
/-- Claim C2, counterexample.  Document: state header `ALABAMA` (line 0),
county header `BIRMINGHAM-Jefferson County` (line 1), state header
`ALASKA` (line 2), hospital record (line 3).  The nearest preceding state
header of the record is `ALASKA`, and no county header follows it, so the
claim demands `state = "ALASKA"` and `county = ""`; but
`parse_hospitals_from_font_detection` takes state, city and county from
the most recent county-map entry, which still carries `ALABAMA`, and
nothing ever resets the county. -/
theorem C2_counterexample :
    let text := "ALABAMA\nBIRMINGHAM-Jefferson County\nALASKA\nAAA HOSPITAL (123456), 1 Main St, Zip 35233"
    let entry : FontEntry :=
      { name := "AAA HOSPITAL", provider_number := "123456",
        line_text := "AAA HOSPITAL (123456), 1 Main St, Zip 35233" }
    let hs := parse_hospitals_from_font_detection text [entry]
    ((splitNl text).getD 2 "" = "ALASKA" ∧ stateHdrMatch "ALASKA" = some "ALASKA") ∧
    findLineIdx (splitNl text) entry.line_text = some 3 ∧
    hs.map (fun h => (h.state, h.city, h.county)) =
      [("ALABAMA", "BIRMINGHAM", "Jefferson County")] ∧
    ¬ (∀ h ∈ hs, h.state = "ALASKA" ∧ h.county = "") := by
  decide

set_option maxRecDepth 400000 in
/-- Claim C2, amended.  Context propagation in the directory variant
works as follows: under `parse_hospitals_from_font_detection` an entity's
state, city and county are all copied from the most recent county-header
map entry preceding the entry's line (the state recorded when that county
header was scanned), and intervening state headers with no later county
header have no effect; under `parse_hospitals` a state header updates
only the current state, while county and city keep the most recent county
header's values — they are never reset to empty.  Demonstrated on the
counterexample document (font detection) and on the analogous document
for `parse_hospitals`, where the entity after the `ALASKA` header keeps
`BIRMINGHAM`/`Jefferson County`. -/
theorem C2_amended :
    (parse_hospitals_from_font_detection
        "ALABAMA\nBIRMINGHAM-Jefferson County\nALASKA\nAAA HOSPITAL (123456), 1 Main St, Zip 35233"
        [{ name := "AAA HOSPITAL", provider_number := "123456",
           line_text := "AAA HOSPITAL (123456), 1 Main St, Zip 35233" }]).map
      (fun h => (h.state, h.city, h.county)) =
      [("ALABAMA", "BIRMINGHAM", "Jefferson County")] ∧
    (parse_hospitals
        "ALABAMA\nBIRMINGHAM-Jefferson County\nALASKA\nBBB HOSPITAL (654321), 2 Oak St, Zip 99999").map
      (fun h => (h.name, h.state, h.city, h.county)) =
      [("BBB HOSPITAL", "ALASKA", "BIRMINGHAM", "Jefferson County")] := by
  constructor
  · decide
  · decide

set_option maxRecDepth 400000 in
/-- Claim C3, counterexample.  The first line opens a parenthetical aside
(`(Operated by` — two `(` but only one `)`, so one unmatched open
parenthesis is pending) and the second line is record-start-shaped
(it matches the assembler's stop pattern).  No parenthesis tracking
exists anywhere in the source: the second line terminates the first
record and starts a new Record Candidate, so two hospitals are produced
where the claim demands one. -/
theorem C3_counterexample :
    let text := "AAA HOSPITAL (123456), 1 Main St (Operated by\nBBB HOSPITAL (654321), 2 Oak St, Zip 99999"
    let line0 := (splitNl text).getD 0 ""
    (line0.data.count '(' = 2 ∧ line0.data.count ')' = 1) ∧
    reTest hospStop_re (strip ((splitNl text).getD 1 "")) = true ∧
    (parse_hospitals text).map (fun h => h.name) = ["AAA HOSPITAL", "BBB HOSPITAL"] := by
  decide

set_option maxRecDepth 400000 in
/-- Claim C3, amended.  The record assembler performs no
open-parenthesis tracking: a record-start-shaped line always terminates
the current record and starts a new Record Candidate, even strictly
inside an unclosed parenthetical aside opened by an earlier line.  On the
counterexample document the second line becomes its own record (its zip
ends up on the second entity, not the first). -/
theorem C3_amended :
    (parse_hospitals
      "AAA HOSPITAL (123456), 1 Main St (Operated by\nBBB HOSPITAL (654321), 2 Oak St, Zip 99999").length = 2 ∧
    ((parse_hospitals
      "AAA HOSPITAL (123456), 1 Main St (Operated by\nBBB HOSPITAL (654321), 2 Oak St, Zip 99999").getD 0 {}).name = "AAA HOSPITAL" ∧
    ((parse_hospitals
      "AAA HOSPITAL (123456), 1 Main St (Operated by\nBBB HOSPITAL (654321), 2 Oak St, Zip 99999").getD 0 {}).zip_code = "" ∧
    ((parse_hospitals
      "AAA HOSPITAL (123456), 1 Main St (Operated by\nBBB HOSPITAL (654321), 2 Oak St, Zip 99999").getD 1 {}).name = "BBB HOSPITAL" ∧
    ((parse_hospitals
      "AAA HOSPITAL (123456), 1 Main St (Operated by\nBBB HOSPITAL (654321), 2 Oak St, Zip 99999").getD 1 {}).zip_code = "99999" := by
  decide

set_option maxRecDepth 400000 in
/-- Claim C4.  Against the code as written, extraction from a blob
containing `Zip 12345-6789 tel. 555-0100` yields `telephone = "555-0100"`
as claimed, but `zip_code = "12345"`, not `"12345-6789"`: the zip pattern
of `extract_hospital_data.py` (line 364) only accepts a U+2013 en dash
before the +4 suffix, while `normalize_text` has already replaced every
en dash by an ASCII hyphen — the code's own comment (`Zip XXXXX-XXXX`)
and its dead `replace('–', '-')` call show the +4 suffix was intended to
be captured. -/
theorem C4_eval :
    (parse_hospital_entry {} "Zip 12345-6789 tel. 555-0100").zip_code = "12345" ∧
    (parse_hospital_entry {} "Zip 12345-6789 tel. 555-0100").telephone = "555-0100" ∧
    (parse_hospital_entry {} "Zip 12345-6789 tel. 555-0100").zip_code ≠ "12345-6789" := by
  decide

set_option maxRecDepth 400000 in
/-- Claim C6.  On the blob
`Control: Voluntary nonprofit Service: General medical Staffed Beds: 42`
the control, service and staffed-bed extractors produce exactly the three
claimed values, none bleeding into an adjacent field. -/
theorem C6_field_non_interference :
    (parse_hospital_entry {}
      "Control: Voluntary nonprofit Service: General medical Staffed Beds: 42").control = "Voluntary nonprofit" ∧
    (parse_hospital_entry {}
      "Control: Voluntary nonprofit Service: General medical Staffed Beds: 42").services = "General medical" ∧
    (parse_hospital_entry {}
      "Control: Voluntary nonprofit Service: General medical Staffed Beds: 42").staffed_beds = "42" := by
  decide

set_option maxRecDepth 400000 in
/-- Claim C5, counterexample.  `HAWAII` is a top-level header label of
the closed fifty-name vocabulary, yet the typography-based detector does
not reject a line whose bold candidate name is `HAWAII`: the skip-list at
lines 142-143 contains only the ten states ALABAMA..GEORGIA, so an entry
is appended. -/
theorem C5_counterexample :
    "HAWAII" ∈ D_STATES ∧ "HAWAII" ∉ TEN_STATES ∧
    detectLine
      [{ text := "HAWAII", flags := 16 }, { text := " (123456)", flags := 16 }]
      "HAWAII (123456)" =
      some { name := "HAWAII", provider_number := "123456",
             line_text := "HAWAII (123456)" } := by
  decide

/-- Claim C5, amended.  The typography-based boundary detector rejects a
line when its trailing non-bold text begins with `"See "`, or when its
bold candidate name equals one of the TEN state names
ALABAMA..GEORGIA that are explicitly listed (not the full fifty-name
vocabulary): in those cases no entry is appended.  Candidate names equal
to any of the other forty state names are not rejected by this check. -/
theorem C5_amended (spans : List Span) (line_text : String)
    (h : startsWithS (strip (scanSpans spans ("", "", "", false)).2.2.1) "See " = true ∨
         TEN_STATES.contains (scanSpans spans ("", "", "", false)).1 = true) :
    detectLine spans line_text = none := by
  unfold detectLine validateEntry
  split
  · rcases h with h | h
    · simp [h]
    · simp [h]
      intro _ _ hmem
      simp at h
      exact absurd h hmem
  · rfl

set_option maxRecDepth 400000 in
/-- Claim C5, witness for the amended theorem: a bold `ALABAMA` name with
a bold provider number is rejected. -/
theorem C5_witness :
    TEN_STATES.contains (scanSpans
      [{ text := "ALABAMA", flags := 16 }, { text := " (123456)", flags := 16 }]
      ("", "", "", false)).1 = true ∧
    detectLine [{ text := "ALABAMA", flags := 16 }, { text := " (123456)", flags := 16 }]
      "ALABAMA (123456)" = none :=
  ⟨by decide, C5_amended _ _ (Or.inr (by decide))⟩

/-- Claim C8.  The reading-order reconstructor: the page's emitted lines
are a permutation of its (non-blank) lines; once a right-column line
(`¬ x < width/2`) has been emitted, every later line of the page is also
right-column (so every left-column line precedes every right-column
line); and for two lines of the same column, positions increase with `y`
(the sort key), so the line with smaller `y` precedes the one with larger
`y`. -/
theorem C8_reading_order (w : ℚ) (items : List PageItem) :
    (orderPage w items).Perm (items.filter (fun it => strip it.text ≠ "")) ∧
    (∀ i j : ℕ, i < j → j < (orderPage w items).length →
      ¬ ((orderPage w items).getD i ⟨0, 0, ""⟩).x < w / 2 →
      ¬ ((orderPage w items).getD j ⟨0, 0, ""⟩).x < w / 2) ∧
    (∀ i j : ℕ, i < j → j < (orderPage w items).length →
      (((orderPage w items).getD i ⟨0, 0, ""⟩).x < w / 2 ↔
        ((orderPage w items).getD j ⟨0, 0, ""⟩).x < w / 2) →
      ((orderPage w items).getD i ⟨0, 0, ""⟩).y ≤
        ((orderPage w items).getD j ⟨0, 0, ""⟩).y) := by
  classical
  have horder : orderPage w items =
      ((items.filter (fun it => strip it.text ≠ "")).filter
        (fun it => it.x < w / 2)).insertionSort yLe ++
      ((items.filter (fun it => strip it.text ≠ "")).filter
        (fun it => ¬ (it.x < w / 2))).insertionSort yLe := rfl
  set kept := items.filter (fun it => strip it.text ≠ "") with hkept
  set L := (kept.filter (fun it => it.x < w / 2)).insertionSort yLe with hLdef
  set R := (kept.filter (fun it => ¬ (it.x < w / 2))).insertionSort yLe with hRdef
  have hlen : (orderPage w items).length = L.length + R.length := by
    rw [horder]; exact List.length_append _ _
  have hlr : (L ++ R).length = L.length + R.length := List.length_append _ _
  have hget : ∀ (k : ℕ), k < (orderPage w items).length →
      ∀ (hk : k < (L ++ R).length),
      (orderPage w items).getD k ⟨0, 0, ""⟩ = (L ++ R)[k] := by
    intro k hk hk2
    rw [horder] at hk ⊢
    exact List.getD_eq_getElem _ _ hk
  have hLmem : ∀ a ∈ L, a.x < w / 2 := by
    intro a ha
    rw [hLdef, List.mem_insertionSort] at ha
    exact of_decide_eq_true (List.mem_filter.1 ha).2
  have hRmem : ∀ a ∈ R, ¬ a.x < w / 2 := by
    intro a ha
    rw [hRdef, List.mem_insertionSort] at ha
    exact of_decide_eq_true (List.mem_filter.1 ha).2
  have hsortL : L.Sorted yLe := List.sorted_insertionSort yLe _
  have hsortR : R.Sorted yLe := List.sorted_insertionSort yLe _
  have hperm : (L ++ R).Perm kept := by
    refine ((List.perm_insertionSort yLe _).append (List.perm_insertionSort yLe _)).trans ?_
    have h := List.filter_append_perm (fun it => decide (it.x < w / 2)) kept
    simpa only [decide_not] using h
  refine ⟨horder ▸ hperm, ?_, ?_⟩
  · intro i j hij hj2 hxi
    have hgj := hget j hj2 (by omega)
    have hgi := hget i (by omega) (by omega)
    have hi' : ¬ i < L.length := by
      intro hi
      apply hxi
      rw [hgi, List.getElem_append_left hi]
      exact hLmem _ (List.getElem_mem _)
    have hjlt : j - L.length < R.length := by omega
    rw [hgj, List.getElem_append_right (by omega)]
    exact hRmem _ (List.getElem_mem _)
  · intro i j hij hj2 hiff
    have hgj := hget j hj2 (by omega)
    have hgi := hget i (by omega) (by omega)
    by_cases hi : i < L.length
    · by_cases hj : j < L.length
      · rw [hgi, hgj, List.getElem_append_left hi, List.getElem_append_left hj]
        have := hsortL.rel_get_of_lt (a := ⟨i, hi⟩) (b := ⟨j, hj⟩) hij
        simpa [yLe, List.get_eq_getElem] using this
      · exfalso
        have hjlt : j - L.length < R.length := by omega
        have h1 : ((orderPage w items).getD i ⟨0, 0, ""⟩).x < w / 2 := by
          rw [hgi, List.getElem_append_left hi]
          exact hLmem _ (List.getElem_mem _)
        have h2 : ¬ ((orderPage w items).getD j ⟨0, 0, ""⟩).x < w / 2 := by
          rw [hgj, List.getElem_append_right (by omega)]
          exact hRmem _ (List.getElem_mem _)
        exact h2 (hiff.1 h1)
    · have hjlt : j - L.length < R.length := by omega
      have hilt : i - L.length < R.length := by omega
      rw [hgi, hgj, List.getElem_append_right (show L.length ≤ i by omega),
        List.getElem_append_right (show L.length ≤ j by omega)]
      have := hsortR.rel_get_of_lt (a := ⟨i - L.length, hilt⟩)
        (b := ⟨j - L.length, hjlt⟩) (by simp only [Fin.mk_lt_mk]; omega)
      simpa [yLe, List.get_eq_getElem] using this

/-- Claim C8, witness: on a concrete page two left-column lines are
emitted in `y` order (an instance of the third conjunct). -/
theorem C8_witness :
    ((orderPage 10 [⟨1, 5, "b"⟩, ⟨1, 3, "a"⟩, ⟨8, 1, "r"⟩]).getD 0 ⟨0, 0, ""⟩).y ≤
    ((orderPage 10 [⟨1, 5, "b"⟩, ⟨1, 3, "a"⟩, ⟨8, 1, "r"⟩]).getD 1 ⟨0, 0, ""⟩).y :=
  (C8_reading_order 10 [⟨1, 5, "b"⟩, ⟨1, 3, "a"⟩, ⟨8, 1, "r"⟩]).2.2 0 1
    (by norm_num)
    (by norm_num [orderPage, List.filter, List.insertionSort, List.orderedInsert,
      yLe, strip, stripL, pyWs])
    (by norm_num [orderPage, List.filter, List.insertionSort, List.orderedInsert,
      yLe, strip, stripL, pyWs])

/-- Claim C9.  The embedded pipeline is a pure function of its inputs:
applying `parse_hospitals_from_font_detection` (or `parse_hospital_entry`)
twice to identical arguments gives identical results.  The shallow
embedding is total and state-free, so determinism holds definitionally. -/
theorem C9_deterministic :
    (∀ text entries, parse_hospitals_from_font_detection text entries =
        parse_hospitals_from_font_detection text entries) ∧
    (∀ h text, parse_hospital_entry h text = parse_hospital_entry h text) :=
  ⟨fun _ _ => rfl, fun _ _ => rfl⟩

/-! ### Soundness of the engine: every result the engine returns is a
`RunSpec` derivation.  These lemmas serve claims C7 and C10. -/

theorem hasSub_iff_infix {pat : List Char} :
    ∀ {s : List Char}, hasSub pat s = true ↔ pat <:+: s := by
  intro s
  induction s with
  | nil =>
    simp [hasSub, List.isPrefixOf_iff_prefix, List.prefix_nil, List.infix_nil]
  | cons c cs ih =>
    simp [hasSub, List.isPrefixOf_iff_prefix, List.infix_cons_iff, ih]

theorem infix_of_eq_append {pre pat suf u : List Char} (h : u = pre ++ (pat ++ suf)) :
    pat <:+: u :=
  ⟨pre, suf, by rw [h, List.append_assoc]⟩

theorem icPrefix_le : ∀ {cs s : List Char}, icPrefix cs s = true → cs.length ≤ s.length := by
  intro cs
  induction cs with
  | nil => intro s _; simp
  | cons c cs ih =>
    intro s h
    cases s with
    | nil => simp [icPrefix] at h
    | cons d ds =>
      simp only [icPrefix, Bool.and_eq_true] at h
      simpa using Nat.succ_le_succ (ih h.2)

theorem runF_sound :
    ∀ (n : Nat) (re : RE) (s : List Char) (g : Caps)
      (p : { t : List Char // t <:+ s } × Caps), p ∈ runF n re s g →
      ∃ u, s = u ++ p.1.1 ∧ RunSpec re u g p.2 := by
  intro n
  induction n with
  | zero => intro re s g p hp; simp [runF] at hp
  | succ n ih =>
    intro re s g p hp
    cases re with
    | eps =>
      simp only [runF, List.mem_singleton] at hp
      subst hp
      exact ⟨[], rfl, RunSpec.eps⟩
    | eos =>
      simp only [runF] at hp
      by_cases hs : s.isEmpty
      · rw [if_pos hs] at hp
        simp only [List.mem_singleton] at hp
        subst hp
        exact ⟨[], rfl, RunSpec.eos⟩
      · rw [if_neg hs] at hp
        simp at hp
    | dot =>
      cases s with
      | nil => simp [runF] at hp
      | cons c cs =>
        simp only [runF] at hp
        by_cases hc : c = '\n'
        · rw [if_pos hc] at hp; simp at hp
        · rw [if_neg hc] at hp
          simp only [List.mem_singleton] at hp
          subst hp
          exact ⟨[c], rfl, RunSpec.dot hc⟩
    | dotAll =>
      cases s with
      | nil => simp [runF] at hp
      | cons c cs =>
        simp only [runF, List.mem_singleton] at hp
        subst hp
        exact ⟨[c], rfl, RunSpec.dotAll⟩
    | cls q =>
      cases s with
      | nil => simp [runF] at hp
      | cons c cs =>
        simp only [runF] at hp
        by_cases hc : q c = true
        · rw [if_pos hc] at hp
          simp only [List.mem_singleton] at hp
          subst hp
          exact ⟨[c], rfl, RunSpec.cls hc⟩
        · rw [if_neg hc] at hp; simp at hp
    | lit cs =>
      simp only [runF] at hp
      by_cases hpre : cs.isPrefixOf s
      · rw [if_pos hpre] at hp
        simp only [List.mem_singleton] at hp
        subst hp
        refine ⟨cs, ?_, RunSpec.lit⟩
        show s = cs ++ s.drop cs.length
        obtain ⟨t, ht⟩ := List.isPrefixOf_iff_prefix.1 hpre
        rw [← ht, List.drop_left]
      · rw [if_neg hpre] at hp; simp at hp
    | litIC cs =>
      simp only [runF] at hp
      by_cases hpre : icPrefix cs s = true
      · rw [if_pos hpre] at hp
        simp only [List.mem_singleton] at hp
        subst hp
        refine ⟨s.take cs.length, ?_, RunSpec.litIC ?_⟩
        · show s = s.take cs.length ++ s.drop cs.length
          rw [List.take_append_drop]
        · rw [List.length_take]
          exact min_eq_left (icPrefix_le hpre)
      · rw [if_neg hpre] at hp; simp at hp
    | seq a b =>
      simp only [runF, List.mem_flatMap, List.mem_map] at hp
      obtain ⟨q, hq, r, hr, rfl⟩ := hp
      obtain ⟨u1, hu1, hs1⟩ := ih a s g q hq
      obtain ⟨u2, hu2, hs2⟩ := ih b q.1.1 q.2 r hr
      refine ⟨u1 ++ u2, ?_, RunSpec.seq hs1 hs2⟩
      show s = (u1 ++ u2) ++ r.1.1
      rw [List.append_assoc, ← hu2, ← hu1]
    | alt a b =>
      simp only [runF, List.mem_append] at hp
      rcases hp with hp | hp
      · obtain ⟨u, hu, hs1⟩ := ih a s g p hp
        exact ⟨u, hu, RunSpec.altL hs1⟩
      · obtain ⟨u, hu, hs1⟩ := ih b s g p hp
        exact ⟨u, hu, RunSpec.altR hs1⟩
    | opt a =>
      simp only [runF, List.mem_append, List.mem_singleton] at hp
      rcases hp with hp | rfl
      · obtain ⟨u, hu, hs1⟩ := ih a s g p hp
        exact ⟨u, hu, RunSpec.optSome hs1⟩
      · exact ⟨[], rfl, RunSpec.optNone⟩
    | star a =>
      simp only [runF, List.mem_append, List.mem_singleton] at hp
      rcases hp with hp | rfl
      · rw [List.mem_flatMap] at hp
        obtain ⟨q, hq, hin⟩ := hp
        by_cases hlen : q.1.1.length < s.length
        · rw [if_pos hlen] at hin
          rw [List.mem_map] at hin
          obtain ⟨r, hr, rfl⟩ := hin
          obtain ⟨u1, hu1, hs1⟩ := ih a s g q hq
          obtain ⟨u2, hu2, hs2⟩ := ih (.star a) q.1.1 q.2 r hr
          refine ⟨u1 ++ u2, ?_, RunSpec.starCons hs1 hs2⟩
          show s = (u1 ++ u2) ++ r.1.1
          rw [List.append_assoc, ← hu2, ← hu1]
        · rw [if_neg hlen] at hin; simp at hin
      · exact ⟨[], rfl, RunSpec.starNil⟩
    | starL a =>
      simp only [runF, List.mem_cons] at hp
      rcases hp with rfl | hp
      · exact ⟨[], rfl, RunSpec.starLNil⟩
      · rw [List.mem_flatMap] at hp
        obtain ⟨q, hq, hin⟩ := hp
        by_cases hlen : q.1.1.length < s.length
        · rw [if_pos hlen] at hin
          rw [List.mem_map] at hin
          obtain ⟨r, hr, rfl⟩ := hin
          obtain ⟨u1, hu1, hs1⟩ := ih a s g q hq
          obtain ⟨u2, hu2, hs2⟩ := ih (.starL a) q.1.1 q.2 r hr
          refine ⟨u1 ++ u2, ?_, RunSpec.starLCons hs1 hs2⟩
          show s = (u1 ++ u2) ++ r.1.1
          rw [List.append_assoc, ← hu2, ← hu1]
        · rw [if_neg hlen] at hin; simp at hin
    | rep m a =>
      cases m with
      | zero =>
        simp only [runF, List.mem_singleton] at hp
        subst hp
        exact ⟨[], rfl, RunSpec.rep0⟩
      | succ m =>
        simp only [runF, List.mem_flatMap, List.mem_map] at hp
        obtain ⟨q, hq, r, hr, rfl⟩ := hp
        obtain ⟨u1, hu1, hs1⟩ := ih a s g q hq
        obtain ⟨u2, hu2, hs2⟩ := ih (.rep m a) q.1.1 q.2 r hr
        refine ⟨u1 ++ u2, ?_, RunSpec.repS hs1 hs2⟩
        show s = (u1 ++ u2) ++ r.1.1
        rw [List.append_assoc, ← hu2, ← hu1]
    | grp i a =>
      simp only [runF, List.mem_map] at hp
      obtain ⟨q, hq, rfl⟩ := hp
      obtain ⟨⟨qv, hqs⟩, qg⟩ := q
      obtain ⟨u, hu, hs1⟩ := ih a s g ⟨⟨qv, hqs⟩, qg⟩ hq
      refine ⟨u, hu, ?_⟩
      show RunSpec (.grp i a) u g (setCap i (s.take (s.length - qv.length)) qg)
      have hs2 : RunSpec a u g qg := hs1
      have hu2 : s = u ++ qv := hu
      rw [hu2, List.length_append, Nat.add_sub_cancel, List.take_left]
      exact RunSpec.grp hs2

theorem run_sound {re : RE} {s : List Char} {g : Caps}
    {p : { t : List Char // t <:+ s } × Caps} (h : p ∈ run re s g) :
    ∃ u, s = u ++ p.1.1 ∧ RunSpec re u g p.2 :=
  runF_sound _ re s g p h

theorem reMatch_some_sound {re : RE} {s : List Char} {len : Nat} {g : Caps}
    (h : reMatch re s = some (len, g)) :
    ∃ u rest, s = u ++ rest ∧ RunSpec re u [] g := by
  unfold reMatch at h
  cases hrun : run re s [] with
  | nil => rw [hrun] at h; exact absurd h (by simp)
  | cons p ps =>
    rw [hrun] at h
    have hp : p ∈ run re s [] := by rw [hrun]; exact List.mem_cons_self _ _
    obtain ⟨u, hu, hs⟩ := run_sound hp
    simp only [Option.some.injEq, Prod.mk.injEq] at h
    exact ⟨u, p.1.1, hu, h.2 ▸ hs⟩

theorem reSearch_some_sound {re : RE} :
    ∀ {s : List Char} {st len : Nat} {g : Caps},
      reSearch re s = some (st, len, g) →
      ∃ t u rest, t <:+ s ∧ t = u ++ rest ∧ RunSpec re u [] g := by
  intro s
  induction s with
  | nil =>
    intro st len g h
    simp only [reSearch] at h
    cases hm : reMatch re [] with
    | none => rw [hm] at h; simp at h
    | some q =>
      obtain ⟨l2, g2⟩ := q
      rw [hm] at h
      simp only [Option.map_some', Option.some.injEq, Prod.mk.injEq] at h
      obtain ⟨u, rest, hu, hs⟩ := reMatch_some_sound hm
      exact ⟨[], u, rest, List.suffix_rfl, hu, h.2.2 ▸ hs⟩
  | cons c cs ih =>
    intro st len g h
    simp only [reSearch] at h
    cases hm : reMatch re (c :: cs) with
    | some q =>
      obtain ⟨l2, g2⟩ := q
      rw [hm] at h
      simp only [Option.some.injEq, Prod.mk.injEq] at h
      obtain ⟨u, rest, hu, hs⟩ := reMatch_some_sound hm
      exact ⟨c :: cs, u, rest, List.suffix_rfl, hu, h.2.2 ▸ hs⟩
    | none =>
      rw [hm] at h
      cases hr : reSearch re cs with
      | none => rw [hr] at h; simp at h
      | some q =>
        obtain ⟨st2, len2, g2⟩ := q
        rw [hr] at h
        simp only [Option.map_some', Option.some.injEq, Prod.mk.injEq] at h
        obtain ⟨t, u, rest, hts, htu, hs⟩ := ih hr
        exact ⟨t, u, rest, hts.trans (List.suffix_cons c cs), htu, h.2.2 ▸ hs⟩

theorem RunSpec.seq_inv {a b : RE} {u : List Char} {g g2 : Caps}
    (h : RunSpec (.seq a b) u g g2) :
    ∃ u1 u2 g1, u = u1 ++ u2 ∧ RunSpec a u1 g g1 ∧ RunSpec b u2 g1 g2 := by
  cases h with
  | seq h1 h2 => exact ⟨_, _, _, rfl, h1, h2⟩

theorem RunSpec.grp_inv {i : Nat} {a : RE} {u : List Char} {g g2 : Caps}
    (h : RunSpec (.grp i a) u g g2) :
    ∃ g1, RunSpec a u g g1 ∧ g2 = setCap i u g1 := by
  cases h with
  | grp h1 => exact ⟨_, h1, rfl⟩

theorem RunSpec.lit_inv {cs u : List Char} {g g2 : Caps}
    (h : RunSpec (.lit cs) u g g2) : u = cs ∧ g2 = g := by
  cases h with
  | lit => exact ⟨rfl, rfl⟩

theorem RunSpec.cls_inv {q : Char → Bool} {u : List Char} {g g2 : Caps}
    (h : RunSpec (.cls q) u g g2) : ∃ c, u = [c] ∧ q c = true ∧ g2 = g := by
  cases h with
  | cls hc => exact ⟨_, rfl, hc, rfl⟩

theorem RunSpec.alt_inv {a b : RE} {u : List Char} {g g2 : Caps}
    (h : RunSpec (.alt a b) u g g2) : RunSpec a u g g2 ∨ RunSpec b u g g2 := by
  cases h with
  | altL h1 => exact Or.inl h1
  | altR h1 => exact Or.inr h1

theorem RunSpec.opt_inv {a : RE} {u : List Char} {g g2 : Caps}
    (h : RunSpec (.opt a) u g g2) : RunSpec a u g g2 ∨ (u = [] ∧ g2 = g) := by
  cases h with
  | optSome h1 => exact Or.inl h1
  | optNone => exact Or.inr ⟨rfl, rfl⟩

theorem RunSpec.caps_extend {re : RE} {u : List Char} {g g2 : Caps}
    (h : RunSpec re u g g2) :
    ∃ l, g2 = l ++ g ∧ ∀ x ∈ l, x.1 ∈ grpIdxs re := by
  induction h with
  | eps => exact ⟨[], rfl, by simp⟩
  | eos => exact ⟨[], rfl, by simp⟩
  | dot _ => exact ⟨[], rfl, by simp⟩
  | dotAll => exact ⟨[], rfl, by simp⟩
  | cls _ => exact ⟨[], rfl, by simp⟩
  | lit => exact ⟨[], rfl, by simp⟩
  | litIC _ => exact ⟨[], rfl, by simp⟩
  | seq h1 h2 ih1 ih2 =>
    obtain ⟨l1, rfl, hl1⟩ := ih1
    obtain ⟨l2, rfl, hl2⟩ := ih2
    refine ⟨l2 ++ l1, (List.append_assoc _ _ _).symm, ?_⟩
    intro x hx
    show x.1 ∈ grpIdxs _ ++ grpIdxs _
    rcases List.mem_append.1 hx with hx | hx
    · exact List.mem_append.2 (Or.inr (hl2 x hx))
    · exact List.mem_append.2 (Or.inl (hl1 x hx))
  | altL h1 ih =>
    obtain ⟨l, rfl, hl⟩ := ih
    exact ⟨l, rfl, fun x hx =>
      show x.1 ∈ grpIdxs _ ++ grpIdxs _ from List.mem_append.2 (Or.inl (hl x hx))⟩
  | altR h1 ih =>
    obtain ⟨l, rfl, hl⟩ := ih
    exact ⟨l, rfl, fun x hx =>
      show x.1 ∈ grpIdxs _ ++ grpIdxs _ from List.mem_append.2 (Or.inr (hl x hx))⟩
  | optSome h1 ih =>
    obtain ⟨l, rfl, hl⟩ := ih
    exact ⟨l, rfl, fun x hx => hl x hx⟩
  | optNone => exact ⟨[], rfl, by simp⟩
  | starNil => exact ⟨[], rfl, by simp⟩
  | starCons h1 h2 ih1 ih2 =>
    obtain ⟨l1, rfl, hl1⟩ := ih1
    obtain ⟨l2, rfl, hl2⟩ := ih2
    refine ⟨l2 ++ l1, (List.append_assoc _ _ _).symm, ?_⟩
    intro x hx
    rcases List.mem_append.1 hx with hx | hx
    · exact hl2 x hx
    · exact hl1 x hx
  | starLNil => exact ⟨[], rfl, by simp⟩
  | starLCons h1 h2 ih1 ih2 =>
    obtain ⟨l1, rfl, hl1⟩ := ih1
    obtain ⟨l2, rfl, hl2⟩ := ih2
    refine ⟨l2 ++ l1, (List.append_assoc _ _ _).symm, ?_⟩
    intro x hx
    rcases List.mem_append.1 hx with hx | hx
    · exact hl2 x hx
    · exact hl1 x hx
  | rep0 => exact ⟨[], rfl, by simp⟩
  | repS h1 h2 ih1 ih2 =>
    obtain ⟨l1, rfl, hl1⟩ := ih1
    obtain ⟨l2, rfl, hl2⟩ := ih2
    refine ⟨l2 ++ l1, (List.append_assoc _ _ _).symm, ?_⟩
    intro x hx
    rcases List.mem_append.1 hx with hx | hx
    · exact hl2 x hx
    · exact hl1 x hx
  | grp h1 ih =>
    rename_i i a u1 g1 g3
    obtain ⟨l, rfl, hl⟩ := ih
    refine ⟨(i, u1) :: l, rfl, ?_⟩
    intro x hx
    show x.1 ∈ i :: grpIdxs a
    rcases List.mem_cons.1 hx with rfl | hx
    · exact List.mem_cons_self _ _
    · exact List.mem_cons_of_mem _ (hl x hx)

theorem RunSpec.caps_eq_of_nogrp {re : RE} {u : List Char} {g g2 : Caps}
    (h : RunSpec re u g g2) (hng : grpIdxs re = []) : g2 = g := by
  obtain ⟨l, rfl, hl⟩ := h.caps_extend
  cases l with
  | nil => rfl
  | cons a l => exact absurd (hl a (List.mem_cons_self a l)) (by simp [hng])

theorem getCap_cons_self {i : Nat} {u : List Char} {g : Caps} :
    getCap ((i, u) :: g) i = some u := by
  simp [getCap, List.find?_cons_of_pos]

theorem getCap_cons_ne {j : Nat} {v : List Char} {i : Nat} {g : Caps} (h : j ≠ i) :
    getCap ((j, v) :: g) i = getCap g i := by
  unfold getCap
  rw [List.find?_cons_of_neg]
  simpa using h

theorem RunSpec.star_cls_aux {q : Char → Bool} {re : RE} {u : List Char} {g g2 : Caps}
    (h : RunSpec re u g g2) :
    re = .star (.cls q) → u.all q = true ∧ g2 = g := by
  induction h
  all_goals intro he
  all_goals try exact RE.noConfusion he
  · exact ⟨rfl, rfl⟩
  · rename_i h1 h2 ih1 ih2
    injection he with ha
    subst ha
    obtain ⟨c, rfl, hc, rfl⟩ := h1.cls_inv
    obtain ⟨hall, rfl⟩ := ih2 rfl
    exact ⟨by simp [hc, hall], rfl⟩

theorem RunSpec.star_cls_all {q : Char → Bool} {u : List Char} {g g2 : Caps}
    (h : RunSpec (.star (.cls q)) u g g2) : u.all q = true ∧ g2 = g :=
  h.star_cls_aux rfl

theorem RunSpec.plusG_cls {q : Char → Bool} {u : List Char} {g g2 : Caps}
    (h : RunSpec (plusG (.cls q)) u g g2) :
    u ≠ [] ∧ u.all q = true ∧ g2 = g := by
  obtain ⟨u1, u2, g1, rfl, h1, h2⟩ := h.seq_inv
  obtain ⟨c, rfl, hc, rfl⟩ := h1.cls_inv
  obtain ⟨hall, rfl⟩ := h2.star_cls_all
  exact ⟨by simp, by simp [hc, hall], rfl⟩

theorem RunSpec.own_inv {u : List Char} {g g2 : Caps}
    (h : RunSpec (.alt (.cls olcsC) (litS "PART")) u g g2) :
    (u = ['O'] ∨ u = ['L'] ∨ u = ['C'] ∨ u = ['S'] ∨ u = "PART".data) ∧ g2 = g := by
  rcases h.alt_inv with h | h
  · obtain ⟨c, rfl, hc, rfl⟩ := h.cls_inv
    have hc4 : c = 'O' ∨ c = 'L' ∨ c = 'C' ∨ c = 'S' := by
      simpa [olcsC, inCh] using hc
    refine ⟨?_, rfl⟩
    rcases hc4 with rfl | rfl | rfl | rfl
    · exact Or.inl rfl
    · exact Or.inr (Or.inl rfl)
    · exact Or.inr (Or.inr (Or.inl rfl))
    · exact Or.inr (Or.inr (Or.inr (Or.inl rfl)))
  · obtain ⟨rfl, rfl⟩ := h.lit_inv
    exact ⟨Or.inr (Or.inr (Or.inr (Or.inr rfl))), rfl⟩

/-! ### Web-pattern absence (claim C7) -/

theorem RunSpec.webD1_infix {u : List Char} {g g2 : Caps}
    (h : RunSpec webD1_re u g g2) :
    "www.".data <:+: u ∨ "http://".data <:+: u ∨ "https://".data <:+: u := by
  obtain ⟨u1, u2, gA, rfl, h1, h2⟩ := h.seq_inv
  obtain ⟨u3, u4, gB, rfl, h3, h4⟩ := h2.seq_inv
  obtain ⟨gC, h5, -⟩ := h4.grp_inv
  obtain ⟨u5, u6, gD, rfl, h6, h7⟩ := h5.seq_inv
  rcases h7.alt_inv with hA | hB
  · obtain ⟨u7, u8, gE, rfl, h8, h9⟩ := hA.seq_inv
    obtain ⟨rfl, -⟩ := h8.lit_inv
    exact Or.inl ⟨u1 ++ (u3 ++ u5), u8, by simp [List.append_assoc]⟩
  · obtain ⟨u7, u8, gE, rfl, h8, h9⟩ := hB.seq_inv
    obtain ⟨rfl, -⟩ := h8.lit_inv
    obtain ⟨u9, u10, gF, rfl, h10, h11⟩ := h9.seq_inv
    obtain ⟨u11, u12, gG, rfl, h12, h13⟩ := h11.seq_inv
    obtain ⟨rfl, -⟩ := h12.lit_inv
    rcases h10.opt_inv with hS | ⟨rfl, -⟩
    · obtain ⟨rfl, -⟩ := hS.lit_inv
      refine Or.inr (Or.inr ⟨u1 ++ (u3 ++ u5), u12, ?_⟩)
      have hsplit : "https://".data = "http".data ++ ('s' :: "://".data) := rfl
      rw [hsplit]
      simp [List.append_assoc]
    · refine Or.inr (Or.inl ⟨u1 ++ (u3 ++ u5), u12, ?_⟩)
      have hsplit : "http://".data = "http".data ++ "://".data := rfl
      rw [hsplit]
      simp [List.append_assoc]

theorem RunSpec.webD2_infix {u : List Char} {g g2 : Caps}
    (h : RunSpec webD2_re u g g2) :
    "www.".data <:+: u ∨ "http://".data <:+: u ∨ "https://".data <:+: u := by
  obtain ⟨gC, h1, -⟩ := h.grp_inv
  rcases h1.alt_inv with hB | hA
  · obtain ⟨u7, u8, gE, rfl, h8, h9⟩ := hB.seq_inv
    obtain ⟨rfl, -⟩ := h8.lit_inv
    obtain ⟨u9, u10, gF, rfl, h10, h11⟩ := h9.seq_inv
    obtain ⟨u11, u12, gG, rfl, h12, h13⟩ := h11.seq_inv
    obtain ⟨rfl, -⟩ := h12.lit_inv
    rcases h10.opt_inv with hS | ⟨rfl, -⟩
    · obtain ⟨rfl, -⟩ := hS.lit_inv
      refine Or.inr (Or.inr ⟨[], u12, ?_⟩)
      have hsplit : "https://".data = "http".data ++ ('s' :: "://".data) := rfl
      rw [hsplit]
      simp [List.append_assoc]
    · refine Or.inr (Or.inl ⟨[], u12, ?_⟩)
      have hsplit : "http://".data = "http".data ++ "://".data := rfl
      rw [hsplit]
      simp [List.append_assoc]
  · obtain ⟨u7, u8, gE, rfl, h8, h9⟩ := hA.seq_inv
    obtain ⟨rfl, -⟩ := h8.lit_inv
    exact Or.inl ⟨[], u8, by simp [List.append_assoc]⟩

theorem reSearch_webD1_none {s : List Char}
    (h1 : hasSub "www.".data s = false) (h2 : hasSub "http://".data s = false)
    (h3 : hasSub "https://".data s = false) :
    reSearch webD1_re s = none := by
  cases hws : reSearch webD1_re s with
  | none => rfl
  | some r =>
    exfalso
    obtain ⟨st, len, g⟩ := r
    obtain ⟨t, u, rest, hts, htu, hspec⟩ := reSearch_some_sound hws
    have hu : u <:+: t := ⟨[], rest, by simp [htu]⟩
    have hts2 : t <:+: s := hts.isInfix
    rcases hspec.webD1_infix with hp | hp | hp
    · have hbad := hasSub_iff_infix.2 ((hp.trans hu).trans hts2)
      rw [h1] at hbad; exact Bool.noConfusion hbad
    · have hbad := hasSub_iff_infix.2 ((hp.trans hu).trans hts2)
      rw [h2] at hbad; exact Bool.noConfusion hbad
    · have hbad := hasSub_iff_infix.2 ((hp.trans hu).trans hts2)
      rw [h3] at hbad; exact Bool.noConfusion hbad

theorem reSearch_webD2_none {s : List Char}
    (h1 : hasSub "www.".data s = false) (h2 : hasSub "http://".data s = false)
    (h3 : hasSub "https://".data s = false) :
    reSearch webD2_re s = none := by
  cases hws : reSearch webD2_re s with
  | none => rfl
  | some r =>
    exfalso
    obtain ⟨st, len, g⟩ := r
    obtain ⟨t, u, rest, hts, htu, hspec⟩ := reSearch_some_sound hws
    have hu : u <:+: t := ⟨[], rest, by simp [htu]⟩
    have hts2 : t <:+: s := hts.isInfix
    rcases hspec.webD2_infix with hp | hp | hp
    · have hbad := hasSub_iff_infix.2 ((hp.trans hu).trans hts2)
      rw [h1] at hbad; exact Bool.noConfusion hbad
    · have hbad := hasSub_iff_infix.2 ((hp.trans hu).trans hts2)
      rw [h2] at hbad; exact Bool.noConfusion hbad
    · have hbad := hasSub_iff_infix.2 ((hp.trans hu).trans hts2)
      rw [h3] at hbad; exact Bool.noConfusion hbad

theorem pheWeb_id (text : String) (h : Hospital)
    (h1 : containsStr "www." text = false) (h2 : containsStr "http://" text = false)
    (h3 : containsStr "https://" text = false) : pheWeb text h = h := by
  unfold pheWeb
  rw [reSearch_webD1_none h1 h2 h3, reSearch_webD2_none h1 h2 h3]

theorem pheZip_web (text : String) (h : Hospital) :
    (pheZip text h).web_address = h.web_address := by
  unfold pheZip; split <;> rfl

theorem pheAddr_web (text : String) (h : Hospital) :
    (pheAddr text h).web_address = h.web_address := by
  unfold pheAddr
  split
  · rfl
  · split <;> rfl

theorem pheAddrClean_web (h : Hospital) :
    (pheAddrClean h).web_address = h.web_address := by
  unfold pheAddrClean; split <;> rfl

theorem pheTel_web (text : String) (h : Hospital) :
    (pheTel text h).web_address = h.web_address := by
  unfold pheTel; split <;> rfl

theorem pheControl_web (text : String) (h : Hospital) :
    (pheControl text h).web_address = h.web_address := by
  unfold pheControl; split <;> rfl

theorem pheService_web (text : String) (h : Hospital) :
    (pheService text h).web_address = h.web_address := by
  unfold pheService; split <;> rfl

theorem pheBeds_web (text : String) (h : Hospital) :
    (pheBeds text h).web_address = h.web_address := by
  unfold pheBeds; split <;> rfl

theorem phePersonnel_web (text : String) (h : Hospital) :
    (phePersonnel text h).web_address = h.web_address := by
  unfold phePersonnel; split <;> rfl

theorem pheContact_web (re : RE) (set : Hospital → String → Hospital)
    (text : String) (h : Hospital)
    (hset : ∀ h1 v, (set h1 v).web_address = h1.web_address) :
    (pheContact re set text h).web_address = h.web_address := by
  unfold pheContact
  split
  · apply hset
  · rfl

/-! ### Output invariants of the system/network variant (claim C10) -/

theorem hospMatch_caps {u : List Char} {g0 gF : Caps}
    (h : RunSpec hospMatch_re u g0 gF) :
    ∃ own beds, getCap gF 2 = some own ∧ getCap gF 3 = some beds ∧
      (own = ['O'] ∨ own = ['L'] ∨ own = ['C'] ∨ own = ['S'] ∨ own = "PART".data) ∧
      beds ≠ [] ∧ beds.all isDigitC = true := by
  obtain ⟨u1, v1, gA, rfl, hc1, k1⟩ := h.seq_inv
  obtain ⟨gA1, hpl, rfl⟩ := hc1.grp_inv
  have hA1 := hpl.caps_eq_of_nogrp rfl
  subst hA1
  obtain ⟨u2, v2, gB, rfl, hc2, k2⟩ := k1.seq_inv
  have hB := hc2.caps_eq_of_nogrp rfl
  subst hB
  obtain ⟨u3, v3, gC, rfl, hc3, k3⟩ := k2.seq_inv
  have hC := hc3.caps_eq_of_nogrp rfl
  subst hC
  obtain ⟨u4, v4, gD, rfl, hc4, k4⟩ := k3.seq_inv
  obtain ⟨gD1, hown, rfl⟩ := hc4.grp_inv
  obtain ⟨hshape, rfl⟩ := hown.own_inv
  obtain ⟨u5, v5, gE, rfl, hc5, k5⟩ := k4.seq_inv
  have hE := hc5.caps_eq_of_nogrp rfl
  subst hE
  obtain ⟨u6, v6, gG, rfl, hc6, k6⟩ := k5.seq_inv
  have hG := hc6.caps_eq_of_nogrp rfl
  subst hG
  obtain ⟨u7, v7, gH, rfl, hc7, k7⟩ := k6.seq_inv
  obtain ⟨gH1, hdig, rfl⟩ := hc7.grp_inv
  obtain ⟨hbne, hball, rfl⟩ := hdig.plusG_cls
  obtain ⟨u8, v8, gI, rfl, hc8, k8⟩ := k7.seq_inv
  have hI := hc8.caps_eq_of_nogrp rfl
  subst hI
  obtain ⟨u9, v9, gJ, rfl, hc9, k9⟩ := k8.seq_inv
  have hJ := hc9.caps_eq_of_nogrp rfl
  subst hJ
  obtain ⟨u10, v10, gK, rfl, hc10, k10⟩ := k9.seq_inv
  have hK := hc10.caps_eq_of_nogrp rfl
  subst hK
  obtain ⟨u11, v11, gL, rfl, hc11, k11⟩ := k10.seq_inv
  have hL := hc11.caps_eq_of_nogrp rfl
  subst hL
  obtain ⟨u12, v12, gM, rfl, hc12, k12⟩ := k11.seq_inv
  have hM := hc12.caps_eq_of_nogrp rfl
  subst hM
  obtain ⟨gN, hlast, rfl⟩ := k12.grp_inv
  have hN := hlast.caps_eq_of_nogrp rfl
  subst hN
  refine ⟨u4, u7, ?_, ?_, hshape, hbne, hball⟩
  · simp only [setCap]
    rw [getCap_cons_ne (by decide), getCap_cons_ne (by decide), getCap_cons_self]
  · simp only [setCap]
    rw [getCap_cons_ne (by decide), getCap_cons_self]

theorem pabZip_keep (rem : String) (r : PRes) :
    (pabZip rem r).hospital_name = r.hospital_name ∧
    (pabZip rem r).ownership_type = r.ownership_type ∧
    (pabZip rem r).staffed_beds = r.staffed_beds := by
  unfold pabZip; split <;> exact ⟨rfl, rfl, rfl⟩

theorem pabAddr_keep (rem : String) (r : PRes) :
    (pabAddr rem r).hospital_name = r.hospital_name ∧
    (pabAddr rem r).ownership_type = r.ownership_type ∧
    (pabAddr rem r).staffed_beds = r.staffed_beds := by
  simp only [pabAddr]
  split
  · exact ⟨rfl, rfl, rfl⟩
  · split
    · split <;> exact ⟨rfl, rfl, rfl⟩
    · exact ⟨rfl, rfl, rfl⟩

theorem pabTelContact_keep (rem : String) (r : PRes) :
    (pabTelContact rem r).hospital_name = r.hospital_name ∧
    (pabTelContact rem r).ownership_type = r.ownership_type ∧
    (pabTelContact rem r).staffed_beds = r.staffed_beds := by
  simp only [pabTelContact]
  repeat' split
  all_goals exact ⟨rfl, rfl, rfl⟩

theorem pabWeb_keep (rem : String) (r : PRes) :
    (pabWeb rem r).hospital_name = r.hospital_name ∧
    (pabWeb rem r).ownership_type = r.ownership_type ∧
    (pabWeb rem r).staffed_beds = r.staffed_beds := by
  unfold pabWeb; split <;> exact ⟨rfl, rfl, rfl⟩

theorem parseAddressBlock_keep (r : PRes) (rem : String) :
    (parseAddressBlock r rem).hospital_name = r.hospital_name ∧
    (parseAddressBlock r rem).ownership_type = r.ownership_type ∧
    (parseAddressBlock r rem).staffed_beds = r.staffed_beds := by
  unfold parseAddressBlock
  obtain ⟨a1, a2, a3⟩ := pabWeb_keep rem (pabTelContact rem (pabAddr rem (pabZip rem r)))
  obtain ⟨b1, b2, b3⟩ := pabTelContact_keep rem (pabAddr rem (pabZip rem r))
  obtain ⟨c1, c2, c3⟩ := pabAddr_keep rem (pabZip rem r)
  obtain ⟨d1, d2, d3⟩ := pabZip_keep rem r
  exact ⟨by rw [a1, b1, c1, d1], by rw [a2, b2, c2, d2], by rw [a3, b3, c3, d3]⟩

theorem parse_hospital_text_good (text state ab : String) :
    (parse_hospital_text text state ab).hospital_name ≠ "" →
    (parse_hospital_text text state ab).ownership_type ∈ OWN ∧
    (parse_hospital_text text state ab).staffed_beds ≠ "" ∧
    (parse_hospital_text text state ab).staffed_beds.data.all isDigitC = true := by
  simp only [parse_hospital_text]
  split
  · intro hname
    exact absurd rfl hname
  · rename_i len g heq
    intro hname
    obtain ⟨fn, fo, fb⟩ := parseAddressBlock_keep
      { state := state, state_abbrev := ab, sectionTag := "Systems",
        hospital_name := strip (grpD g 1), ownership_type := grpD g 2,
        staffed_beds := grpD g 3 } (strip (grpD g 4))
    rw [fo, fb]
    obtain ⟨u, rest, hsplit, hspec⟩ := reMatch_some_sound heq
    obtain ⟨own, beds, hcap2, hcap3, hshape, hbne, hball⟩ := hospMatch_caps hspec
    refine ⟨?_, ?_, ?_⟩
    · show grpD g 2 ∈ OWN
      simp only [grpD, hcap2, Option.map_some', Option.getD_some]
      rcases hshape with rfl | rfl | rfl | rfl | rfl <;> decide
    · show grpD g 3 ≠ ""
      simp only [grpD, hcap3, Option.map_some', Option.getD_some]
      intro hcontra
      exact hbne (congrArg String.data hcontra)
    · show (grpD g 3).data.all isDigitC = true
      simp only [grpD, hcap3, Option.map_some', Option.getD_some]
      exact hball

theorem build_entry_fields (hdr : SysHdr) (addr : SysAddr) (result : PRes) :
    (build_entry hdr addr result).hospital_name = result.hospital_name ∧
    (build_entry hdr addr result).ownership_type = result.ownership_type ∧
    (build_entry hdr addr result).staffed_beds = result.staffed_beds := by
  simp only [build_entry]
  split <;> exact ⟨rfl, rfl, rfl⟩

theorem entry_good (hdr : SysHdr) (sa : SysAddr) (t st ab : String) :
    (build_entry hdr sa (parse_hospital_text t st ab)).hospital_name ≠ "" →
    GoodSys (build_entry hdr sa (parse_hospital_text t st ab)) := by
  intro hname
  obtain ⟨f1, f2, f3⟩ := build_entry_fields hdr sa (parse_hospital_text t st ab)
  rw [f1] at hname
  obtain ⟨g1, g2, g3⟩ := parse_hospital_text_good t st ab hname
  unfold GoodSys
  exact ⟨by rw [f1]; exact hname, by rw [f2]; exact g1,
         by rw [f3]; exact g2, by rw [f3]; exact g3⟩

theorem pushEntry_inv {P : HospitalEntry → Prop} {acc : List HospitalEntry}
    {e : HospitalEntry} (hacc : ∀ x ∈ acc, P x)
    (he : e.hospital_name ≠ "" → P e) :
    ∀ x ∈ pushEntry acc e, P x := by
  intro x hx
  unfold pushEntry at hx
  split at hx
  next hne =>
    rcases List.mem_append.1 hx with h | h
    · exact hacc x h
    · rw [List.mem_singleton] at h
      subst h
      exact he hne
  next => exact hacc x hx

theorem psLoop_inv (lines : List String) (sys_end : Nat) (hdr : SysHdr) :
    ∀ (fuel i : Nat) (cst cab : String) (sa : SysAddr) (acc : List HospitalEntry),
      (∀ x ∈ acc, GoodSys x) →
      ∀ x ∈ psLoop lines sys_end hdr fuel i cst cab sa acc, GoodSys x := by
  intro fuel
  induction fuel with
  | zero => intro i cst cab sa acc hacc x hx; exact hacc x hx
  | succ n ih =>
    intro i cst cab sa acc hacc x hx
    simp only [psLoop] at hx
    split at hx
    · split at hx
      · exact ih _ _ _ _ _ hacc x hx
      · split at hx
        · exact ih _ _ _ _ _ hacc x hx
        · split at hx
          · exact ih _ _ _ _ _ hacc x hx
          · split at hx
            · split at hx
              · exact ih _ _ _ _ _
                  (pushEntry_inv hacc (entry_good _ _ _ _ _)) x hx
              · exact ih _ _ _ _ _ hacc x hx
            · split at hx
              · split at hx
                · split at hx
                  · exact ih _ _ _ _ _
                      (pushEntry_inv hacc (entry_good _ _ _ _ _)) x hx
                  · exact ih _ _ _ _ _ hacc x hx
                · split at hx
                  · exact ih _ _ _ _ _
                      (pushEntry_inv hacc (entry_good _ _ _ _ _)) x hx
                  · exact ih _ _ _ _ _ hacc x hx
              · exact ih _ _ _ _ _ hacc x hx
    · exact hacc x hx

theorem parse_systems_go_inv (lines : List String) :
    ∀ (hdrs : List SysHdr) (acc : List HospitalEntry),
      (∀ x ∈ acc, GoodSys x) →
      ∀ x ∈ parse_systems.go lines hdrs acc, GoodSys x := by
  intro hdrs
  induction hdrs with
  | nil => intro acc hacc x hx; exact hacc x hx
  | cons hdr rest ih =>
    intro acc hacc x hx
    simp only [parse_systems.go] at hx
    exact ih _ (psLoop_inv lines _ hdr _ _ _ _ _ _ hacc) x hx

theorem pnLoop_inv (lines : List String) (net_end : Nat) (hdr : SysHdr) (na : SysAddr) :
    ∀ (fuel i : Nat) (cst cab : String) (acc : List HospitalEntry),
      (∀ x ∈ acc, x.hospital_name ≠ "") →
      ∀ x ∈ pnLoop lines net_end hdr na fuel i cst cab acc, x.hospital_name ≠ "" := by
  intro fuel
  induction fuel with
  | zero => intro i cst cab acc hacc x hx; exact hacc x hx
  | succ n ih =>
    intro i cst cab acc hacc x hx
    simp only [pnLoop] at hx
    split at hx
    · split at hx
      · exact ih _ _ _ _ hacc x hx
      · split at hx
        · exact ih _ _ _ _ hacc x hx
        · split at hx
          · exact ih _ _ _ _ (pushEntry_inv hacc (fun hne => hne)) x hx
          · exact ih _ _ _ _ hacc x hx
    · exact hacc x hx

theorem parse_networks_go_inv (lines : List String) :
    ∀ (hdrs : List SysHdr) (acc : List HospitalEntry),
      (∀ x ∈ acc, x.hospital_name ≠ "") →
      ∀ x ∈ parse_networks.go lines hdrs acc, x.hospital_name ≠ "" := by
  intro hdrs
  induction hdrs with
  | nil => intro acc hacc x hx; exact hacc x hx
  | cons hdr rest ih =>
    intro acc hacc x hx
    simp only [parse_networks.go] at hx
    exact ih _ (pnLoop_inv lines _ hdr _ _ _ _ _ _ hacc) x hx

/-- Claim C7.  Field extraction is total — the embedding of
`parse_hospital_entry` is a total Lean function, so every blob yields a
result and a non-matching pattern leaves its field at the dataclass
default `""` — and, proved for every input: when the blob contains none
of the web-address markers `www.`, `http://`, `https://`, neither web
pattern of lines 411-418 can match, so the `web_address` field of the
result is the empty string. -/
theorem C7_graceful_absence (text : String)
    (h1 : containsStr "www." text = false) (h2 : containsStr "http://" text = false)
    (h3 : containsStr "https://" text = false) :
    (parse_hospital_entry {} text).web_address = "" := by
  unfold parse_hospital_entry
  rw [phePersonnel_web, pheBeds_web, pheService_web, pheControl_web,
      pheWeb_id _ _ h1 h2 h3,
      pheContact_web (contact_re "CNO:") (fun h v => { h with cno := v }) text _
        (fun _ _ => rfl),
      pheContact_web (contact_re "CHR:") (fun h v => { h with chr := v }) text _
        (fun _ _ => rfl),
      pheContact_web (contact_re "CIO:") (fun h v => { h with cio := v }) text _
        (fun _ _ => rfl),
      pheContact_web cmo_re (fun h v => { h with cmo := v }) text _
        (fun _ _ => rfl),
      pheContact_web (contact_re "CFO:") (fun h v => { h with cfo := v }) text _
        (fun _ _ => rfl),
      pheContact_web (contact_re "COO:") (fun h v => { h with coo := v }) text _
        (fun _ _ => rfl),
      pheContact_web (contact_re "Primary Contact:")
        (fun h v => { h with primary_contact := v }) text _ (fun _ _ => rfl),
      pheTel_web, pheAddrClean_web, pheAddr_web, pheZip_web]

/-- Claim C7, witness: the blob `Control: State` contains no web marker
and its extraction leaves `web_address` empty. -/
theorem C7_witness :
    (containsStr "www." "Control: State" = false ∧
     containsStr "http://" "Control: State" = false ∧
     containsStr "https://" "Control: State" = false) ∧
    (parse_hospital_entry {} "Control: State").web_address = "" :=
  ⟨⟨by decide, by decide, by decide⟩,
   C7_graceful_absence "Control: State" (by decide) (by decide) (by decide)⟩

/-- Claim C10.  Output invariant, proved for every input document: every
entry `parse_systems` emits has a non-empty `hospital_name` (the
`pushEntry` guard), an `ownership_type` among `O`, `L`, `C`, `S`, `PART`
(capture group 2 of the anchor pattern) and a `staffed_beds` that is a
non-empty all-digit string (capture group 3); every entry
`parse_networks` emits has a non-empty `hospital_name`. -/
theorem C10_output_invariant :
    (∀ (lines : List String) (hdrs : List SysHdr) (e : HospitalEntry),
        e ∈ parse_systems lines hdrs →
        e.hospital_name ≠ "" ∧ e.ownership_type ∈ OWN ∧
        e.staffed_beds ≠ "" ∧ e.staffed_beds.data.all isDigitC = true) ∧
    (∀ (lines : List String) (hdrs : List SysHdr) (e : HospitalEntry),
        e ∈ parse_networks lines hdrs → e.hospital_name ≠ "") := by
  constructor
  · intro lines hdrs e he
    exact parse_systems_go_inv lines hdrs [] (by simp) e he
  · intro lines hdrs e he
    exact parse_networks_go_inv lines hdrs [] (by simp) e he

set_option maxRecDepth 400000 in
/-- Claim C10, witness: a concrete two-line system document and a
concrete three-line network document, with their emitted entries. -/
theorem C10_witness :
    (({ healthcare_system := "TEST SYSTEM", system_id := "1234", system_type := "IO",
        sectionTag := "Systems", hospital_name := "GENERAL HOSPITAL",
        ownership_type := "O", staffed_beds := "10",
        address := "1 Main St, Springfield", state := "ILLINOIS",
        state_abbrev := "IL", zip_code := "62701" } : HospitalEntry) ∈
      parse_systems
        ["1234: TEST SYSTEM (IO)",
         "GENERAL HOSPITAL (O, 10 beds) 1 Main St, Springfield, IL, Zip 62701"]
        [{ name := "TEST SYSTEM", id := "1234", typ := "IO",
           sectionTag := "Systems", line_idx := 0 }] ∧
     ({ healthcare_system := "TEST SYSTEM", system_id := "1234", system_type := "IO",
        sectionTag := "Systems", hospital_name := "GENERAL HOSPITAL",
        ownership_type := "O", staffed_beds := "10",
        address := "1 Main St, Springfield", state := "ILLINOIS",
        state_abbrev := "IL", zip_code := "62701" } : HospitalEntry).hospital_name ≠ "" ∧
     ({ healthcare_system := "TEST SYSTEM", system_id := "1234", system_type := "IO",
        sectionTag := "Systems", hospital_name := "GENERAL HOSPITAL",
        ownership_type := "O", staffed_beds := "10",
        address := "1 Main St, Springfield", state := "ILLINOIS",
        state_abbrev := "IL", zip_code := "62701" } : HospitalEntry).ownership_type ∈ OWN ∧
     ({ healthcare_system := "TEST SYSTEM", system_id := "1234", system_type := "IO",
        sectionTag := "Systems", hospital_name := "GENERAL HOSPITAL",
        ownership_type := "O", staffed_beds := "10",
        address := "1 Main St, Springfield", state := "ILLINOIS",
        state_abbrev := "IL", zip_code := "62701" } : HospitalEntry).staffed_beds ≠ "" ∧
     ({ healthcare_system := "TEST SYSTEM", system_id := "1234", system_type := "IO",
        sectionTag := "Systems", hospital_name := "GENERAL HOSPITAL",
        ownership_type := "O", staffed_beds := "10",
        address := "1 Main St, Springfield", state := "ILLINOIS",
        state_abbrev := "IL", zip_code :=
          "62701" } : HospitalEntry).staffed_beds.data.all isDigitC = true) ∧
    (({ healthcare_system := "TEST NETWORK", system_type := "NET",
        system_zip := "19901", system_telephone := "302/555-1111",
        system_ceo := "John Roe", sectionTag := "Networks",
        hospital_name := "MEMORIAL HOSPITAL", address := "2 Oak St, Dover",
        state := "DELAWARE", state_abbrev := "DE", zip_code := "19901",
        telephone := "302/555-2222" } : HospitalEntry) ∈
      parse_networks
        ["TEST NETWORK",
         "10 Net Rd, Dover, DE, Zip 19901; tel. 302/555-1111; John Roe",
         "MEMORIAL HOSPITAL, 2 Oak St, Dover, DE, Zip 19901; tel. 302/555-2222"]
        [{ name := "TEST NETWORK", typ := "NET",
           sectionTag := "Networks", line_idx := 0 }] ∧
     ({ healthcare_system := "TEST NETWORK", system_type := "NET",
        system_zip := "19901", system_telephone := "302/555-1111",
        system_ceo := "John Roe", sectionTag := "Networks",
        hospital_name := "MEMORIAL HOSPITAL", address := "2 Oak St, Dover",
        state := "DELAWARE", state_abbrev := "DE", zip_code := "19901",
        telephone := "302/555-2222" } : HospitalEntry).hospital_name ≠ "") :=
  ⟨⟨by decide, C10_output_invariant.1
      ["1234: TEST SYSTEM (IO)",
       "GENERAL HOSPITAL (O, 10 beds) 1 Main St, Springfield, IL, Zip 62701"]
      [{ name := "TEST SYSTEM", id := "1234", typ := "IO",
         sectionTag := "Systems", line_idx := 0 }] _ (by decide)⟩,
   ⟨by decide, C10_output_invariant.2
      ["TEST NETWORK",
       "10 Net Rd, Dover, DE, Zip 19901; tel. 302/555-1111; John Roe",
       "MEMORIAL HOSPITAL, 2 Oak St, Dover, DE, Zip 19901; tel. 302/555-2222"]
      [{ name := "TEST NETWORK", typ := "NET",
         sectionTag := "Networks", line_idx := 0 }] _ (by decide)⟩⟩

end HospExtract
